import Mathlib

/-!
# Telegram Desktop widgets: a shallow embedding

Models of five GUI units of `Telegram/SourceFiles`:

* `ui/widgets/separate_panel.cpp`        (`Ui.SeparatePanel`)
* `window/window_main_menu.cpp`          (`Window.MainMenu`)
* `old_settings/settings_inner_widget.cpp`    (`OldSettings.InnerWidget`)
* `old_settings/settings_advanced_widget.cpp` (`OldSettings.AdvancedWidget`)
* `boxes/share_box.h`                    (`ShareBox`, declarations only)

Every widget is a record of the member fields the handlers read or write.
A handler is a pure function from the old record (and the event, and the
globals it reads) to the new record.  Calls that leave the widget (firing a
value on an event stream, logging, calling the base class, sending a network
request) are appended to an explicit log.  A dereference of an owning pointer
that may be null is a lookup in an `Option`; where the source dereferences
without a guard the model returns `Except.error`.

Coordinates are C++ `int`s in the source.  They are screen and widget
coordinates, far inside the 32 bit range, and are modelled by `Int`.
-/

/-! ## Toolkit types -/

namespace Qt

/-- The flag value of `Qt::LeftButton` in `Qt::MouseButton`. -/
def LeftButton : Nat := 0x00000001

/-- The flag value of `Qt::RightButton` in `Qt::MouseButton`. -/
def RightButton : Nat := 0x00000002

/-- The key code `Qt::Key_Escape`. -/
def Key_Escape : Nat := 0x01000000

/-- A point with integer coordinates (`QPoint`). -/
structure QPoint where
  x : Int
  y : Int
deriving DecidableEq, Repr

/-- Componentwise sum, `operator+` of `QPoint`. -/
def QPoint.add (a b : QPoint) : QPoint := ⟨a.x + b.x, a.y + b.y⟩

/-- Componentwise difference, `operator-` of `QPoint`. -/
def QPoint.sub (a b : QPoint) : QPoint := ⟨a.x - b.x, a.y - b.y⟩

/-- A rectangle given as `QRect(x, y, width, height)`. -/
structure QRect where
  x : Int
  y : Int
  width : Int
  height : Int
deriving DecidableEq, Repr

/-- The coordinate `x2` that `QRect` stores for its right edge. -/
def QRect.x2 (r : QRect) : Int := r.x + r.width - 1

/-- The coordinate `y2` that `QRect` stores for its bottom edge. -/
def QRect.y2 (r : QRect) : Int := r.y + r.height - 1

/-- The test `QRect::contains(const QPoint &p)` with `proper = false`: the
edges are swapped when the stored far edge lies more than one unit before
the near edge, then the point is compared with both edges inclusively. -/
def QRect.contains (r : QRect) (p : QPoint) : Bool :=
  let l := if r.x2 < r.x - 1 then r.x2 else r.x
  let rr := if r.x2 < r.x - 1 then r.x else r.x2
  if p.x < l || p.x > rr then false
  else
    let t := if r.y2 < r.y - 1 then r.y2 else r.y
    let b := if r.y2 < r.y - 1 then r.y else r.y2
    if p.y < t || p.y > b then false else true

/-- The test `QRect::isEmpty`: `x1 > x2 || y1 > y2`. -/
def QRect.isEmpty (r : QRect) : Bool := r.x > r.x2 || r.y > r.y2

/-- A size with integer width and height (`QSize`). -/
structure QSize where
  width : Int
  height : Int
deriving DecidableEq, Repr

/-- The test `QSize::isEmpty`: `wd < 1 || ht < 1`. -/
def QSize.isEmpty (size : QSize) : Bool := size.width < 1 || size.height < 1

/-- Four margins (`QMargins`, used as `style::margins`). -/
structure QMargins where
  left : Int
  top : Int
  right : Int
  bottom : Int
deriving DecidableEq, Repr

/-- The fields of a `QMouseEvent` that the handlers read. -/
structure QMouseEvent where
  /-- The button that caused the event, `e->button()`. -/
  button : Nat
  /-- The set of buttons held during the event, `e->buttons()`, as flags. -/
  buttons : Nat
  /-- The cursor position relative to the widget, `e->pos()`. -/
  pos : QPoint
  /-- The cursor position on the screen, `e->globalPos()`. -/
  globalPos : QPoint
deriving DecidableEq, Repr

/-- The fields of a `QKeyEvent` that the handlers read. -/
structure QKeyEvent where
  /-- The key code, `e->key()`. -/
  key : Nat
deriving DecidableEq, Repr

/-- The accepted flag of a `QCloseEvent`. -/
structure QCloseEvent where
  accepted : Bool
deriving DecidableEq, Repr

/-- The call `e->ignore()`: clears the accepted flag. -/
def QCloseEvent.ignore (_e : QCloseEvent) : QCloseEvent := { accepted := false }

end Qt

/-! ## `ui/widgets/separate_panel.cpp` -/

namespace Ui

open Qt

/-- The globals a `SeparatePanel` reads. -/
structure PanelEnv where
  /-- The layout direction, `rtl()`. -/
  rtl : Bool
  /-- The style constant `st::separatePanelTitleHeight`. -/
  separatePanelTitleHeight : Int
deriving DecidableEq, Repr

/-- What a handler of the panel does outside the panel record. -/
inductive PanelEffect where
  /-- The call `_synteticBackRequests.fire({})`. -/
  | fireSynteticBackRequests
  /-- The call `_userCloseRequests.fire({})`. -/
  | fireUserCloseRequests
  /-- A click delivered by `_back->entity()->clicks()`. -/
  | backClicked
  /-- A click delivered by `_close->clicks()`. -/
  | closeClicked
  /-- A line written by `LOG((...))`. -/
  | log (line : String)
  /-- The call `RpWidget::keyPressEvent(e)`. -/
  | rpWidgetKeyPressEvent (e : QKeyEvent)
  /-- The call `RpWidget::eventHook(e)` for an event of the given type. -/
  | rpWidgetEventHook (eventType : Nat)
  /-- The widget call `update()`. -/
  | update
  /-- The widget call `raise()`. -/
  | raise
  /-- The widget call `setWindowState(windowState() | Qt::WindowActive)`. -/
  | setWindowStateActive
  /-- The widget call `activateWindow()`. -/
  | activateWindow
  /-- The widget call `setFocus()`. -/
  | setFocus
  /-- The lambda of `finishClose` queued by `crl::on_main`. -/
  | queuedCloseCheck
deriving DecidableEq, Repr

/-- The state of the label `_title` (a `Ui::FlatLabel`) that the panel reads
or writes. -/
structure TitleLabel where
  text : String
  /-- The attribute `Qt::WA_TransparentForMouseEvents`. -/
  transparentForMouseEvents : Bool
  shown : Bool
  width : Int
  /-- The position given to `moveToLeft`. -/
  left : Int
  top : Int
deriving DecidableEq, Repr

/-- The member fields and widget geometry of a `SeparatePanel`. -/
structure SeparatePanel where
  /-- The window position, `x()`. -/
  x : Int
  /-- The window position, `y()`. -/
  y : Int
  /-- The window width, `width()`. -/
  width : Int
  /-- The window height, `height()`. -/
  height : Int
  _padding : QMargins
  _dragging : Bool
  _dragStartMousePosition : QPoint
  _dragStartMyPosition : QPoint
  _hideOnDeactivate : Bool
  _visible : Bool
  /-- The state of the back button, `_back->toggled()`. -/
  backToggled : Bool
  /-- The log of effects, oldest first. -/
  effects : List PanelEffect
  /-- The geometry of `_body`. -/
  body : QRect
  /-- The pointer `_title`, `none` when null. -/
  _title : Option TitleLabel
  /-- The animation `_titleLeft`: its value while it runs, `none` when it
  does not run. -/
  _titleLeft : Option Rat
  /-- The position of `_back` given to `moveToLeft`. -/
  backLeftTop : QPoint
  /-- The position of `_close` given to `moveToRight`. -/
  closeRightTop : QPoint
  /-- The value of `isHidden()`. -/
  isHidden : Bool
deriving DecidableEq, Repr

namespace SeparatePanel

/-- Modelled from the spec: `myrtlrect` is a helper of the widget base class
that the excerpt does not contain.  It mirrors the rectangle inside the
widget in right-to-left layout and returns it as given otherwise. -/
def myrtlrect (env : PanelEnv) (s : SeparatePanel) (x y w h : Int) : QRect :=
  if env.rtl then ⟨s.width - x - w, y, w, h⟩ else ⟨x, y, w, h⟩

/-- The widget rectangle `rect()`. -/
def rect (s : SeparatePanel) : QRect := ⟨0, 0, s.width, s.height⟩

/-- The widget call `move(p)`: sets the window position. -/
def move (s : SeparatePanel) (p : QPoint) : SeparatePanel :=
  { s with x := p.x, y := p.y }

/-- The function `SeparatePanel::hideGetDuration`: `return 0;`. -/
def hideGetDuration (s : SeparatePanel) : SeparatePanel × Int := (s, 0)

/-- The local `dragArea` of `mousePressEvent`. -/
def dragArea (env : PanelEnv) (s : SeparatePanel) : QRect :=
  myrtlrect env s
    s._padding.left
    s._padding.top
    (s.width - s._padding.left - s._padding.right)
    env.separatePanelTitleHeight

/-- The handler `SeparatePanel::mousePressEvent`. -/
def mousePressEvent (env : PanelEnv) (s : SeparatePanel) (e : QMouseEvent) :
    SeparatePanel :=
  let dragArea := dragArea env s
  if e.button = LeftButton then
    if dragArea.contains e.pos then
      { s with
        _dragging := true
        _dragStartMousePosition := e.globalPos
        _dragStartMyPosition := ⟨s.x, s.y⟩ }
    else if !(rect s).contains e.pos && s._hideOnDeactivate then
      let s1 := { s with
        effects := s.effects ++ [PanelEffect.log "Export Info: Panel Hide On Click."] }
      (hideGetDuration s1).1
    else s
  else s

/-- The handler `SeparatePanel::mouseMoveEvent`. -/
def mouseMoveEvent (s : SeparatePanel) (e : QMouseEvent) : SeparatePanel :=
  if s._dragging then
    if (e.buttons &&& LeftButton) = 0 then
      { s with _dragging := false }
    else
      move s (QPoint.add s._dragStartMyPosition
        (QPoint.sub e.globalPos s._dragStartMousePosition))
  else s

/-- The handler `SeparatePanel::mouseReleaseEvent`. -/
def mouseReleaseEvent (s : SeparatePanel) (e : QMouseEvent) : SeparatePanel :=
  if e.button = LeftButton then { s with _dragging := false } else s

/-- The handler `SeparatePanel::closeEvent`; returns the panel and the event. -/
def closeEvent (s : SeparatePanel) (e : QCloseEvent) : SeparatePanel × QCloseEvent :=
  let e1 := e.ignore
  ({ s with effects := s.effects ++ [PanelEffect.fireUserCloseRequests] }, e1)

/-- The handler `SeparatePanel::keyPressEvent`. -/
def keyPressEvent (s : SeparatePanel) (e : QKeyEvent) : SeparatePanel :=
  let s1 :=
    if e.key = Key_Escape && s.backToggled then
      { s with effects := s.effects ++ [PanelEffect.fireSynteticBackRequests] }
    else s
  { s1 with effects := s1.effects ++ [PanelEffect.rpWidgetKeyPressEvent e] }

/-- The values that the stream `backRequests()` has emitted: the merge of the
back button clicks (each mapped to the empty value) with the values fired on
`_synteticBackRequests`, in the order they happened. -/
def backRequests (s : SeparatePanel) : List Unit :=
  s.effects.filterMap fun
    | PanelEffect.backClicked => some ()
    | PanelEffect.fireSynteticBackRequests => some ()
    | _ => none

/-- The values that the stream `closeRequests()` has emitted: the merge of the
close button clicks (each mapped to the empty value) with the values fired on
`_userCloseRequests`, in the order they happened. -/
def closeRequests (s : SeparatePanel) : List Unit :=
  s.effects.filterMap fun
    | PanelEffect.closeClicked => some ()
    | PanelEffect.fireUserCloseRequests => some ()
    | _ => none

/-- The number of values fired on `_userCloseRequests` so far. -/
def userCloseRequestsFired (s : SeparatePanel) : Nat :=
  s.effects.count PanelEffect.fireUserCloseRequests

/-- The number of values fired on `_synteticBackRequests` so far. -/
def synteticBackRequestsFired (s : SeparatePanel) : Nat :=
  s.effects.count PanelEffect.fireSynteticBackRequests

/-- A mouse event as the event loop delivers it to the panel. -/
inductive MouseInput where
  | press (e : QMouseEvent)
  | move (e : QMouseEvent)
  | release (e : QMouseEvent)
deriving DecidableEq, Repr

/-- Delivery of one mouse event to its handler. -/
def dispatch (env : PanelEnv) (s : SeparatePanel) : MouseInput → SeparatePanel
  | MouseInput.press e => mousePressEvent env s e
  | MouseInput.move e => mouseMoveEvent s e
  | MouseInput.release e => mouseReleaseEvent s e

/-- Delivery of a sequence of mouse events, first to last. -/
def dispatchAll (env : PanelEnv) (s : SeparatePanel) (es : List MouseInput) :
    SeparatePanel :=
  es.foldl (dispatch env) s

/-- An event after which a drag in progress is still in progress: a move with
the left button held, or a press or release of another button. -/
def MouseInput.keepsDrag : MouseInput → Bool
  | MouseInput.press e => e.button != LeftButton
  | MouseInput.move e => (e.buttons &&& LeftButton) != 0
  | MouseInput.release e => e.button != LeftButton

/-- An event that ends a drag: a release of the left button, or a move
without the left button held. -/
def MouseInput.endsDrag : MouseInput → Bool
  | MouseInput.press _ => false
  | MouseInput.move e => (e.buttons &&& LeftButton) == 0
  | MouseInput.release e => e.button == LeftButton

/-- The rectangle with `x = padding.left`, `y = padding.top`,
`width = width() - padding.left - padding.right` and
`height = separatePanelTitleHeight`, without mirroring. -/
def unmirroredTitleRect (env : PanelEnv) (s : SeparatePanel) : QRect :=
  ⟨s._padding.left, s._padding.top,
    s.width - s._padding.left - s._padding.right,
    env.separatePanelTitleHeight⟩

/-- The value of `_padding` in every state the panel reaches: the member is
default constructed, which for `QMargins` makes all four margins zero, and no
statement of `separate_panel.cpp` assigns it (`initGeometry` and
`createBorderImage` are empty, every other use reads it). -/
def constructedPadding : QMargins := ⟨0, 0, 0, 0⟩

/-- The history `es` explains a drag with respect to `area`: some left press
in `es` landed inside `area` (taken in the state the press met), and no event
after that press ends a drag. -/
def DragExplained (area : PanelEnv → SeparatePanel → QRect) (env : PanelEnv)
    (s : SeparatePanel) (es : List MouseInput) : Prop :=
  ∃ pre e post, es = pre ++ MouseInput.press e :: post ∧
    e.button = LeftButton ∧
    (area env (dispatchAll env s pre)).contains e.pos = true ∧
    ∀ i ∈ post, MouseInput.endsDrag i = false

/-- A panel of width 100 with paddings 0 (left) and 10 (right), not dragged. -/
def samplePanel : SeparatePanel :=
  { x := 300, y := 200, width := 100, height := 50
    _padding := ⟨0, 0, 10, 0⟩
    _dragging := false
    _dragStartMousePosition := ⟨0, 0⟩
    _dragStartMyPosition := ⟨0, 0⟩
    _hideOnDeactivate := false
    _visible := false
    backToggled := false
    effects := []
    body := ⟨0, 0, 0, 0⟩
    _title := none
    _titleLeft := none
    backLeftTop := ⟨0, 0⟩
    closeRightTop := ⟨0, 0⟩
    isHidden := false }

/-- A left-to-right environment with a title of height 20. -/
def sampleEnv : PanelEnv := { rtl := false, separatePanelTitleHeight := 20 }

/-- A right-to-left environment with a title of height 20. -/
def sampleRtlEnv : PanelEnv := { rtl := true, separatePanelTitleHeight := 20 }

/-- A mouse event of the left button at widget point `(px, py)` where the
panel sits at `(300, 200)` on the screen. -/
def leftAt (px py : Int) : QMouseEvent :=
  { button := LeftButton, buttons := LeftButton
    pos := ⟨px, py⟩, globalPos := ⟨300 + px, 200 + py⟩ }

end SeparatePanel

end Ui

/-! ### Geometry, title, painting and activation of the panel -/

namespace Ui

open Qt

/-- The style constants and child sizes that the title code reads. -/
structure TitleStyle where
  /-- The style constant `st::separatePanelTitleLeft`. -/
  separatePanelTitleLeft : Int
  /-- The style constant `st::separatePanelTitleSkip`. -/
  separatePanelTitleSkip : Int
  /-- The style constant `st::separatePanelTitleTop`. -/
  separatePanelTitleTop : Int
  /-- The width of the back button, `_back->width()`. -/
  backWidth : Int
  /-- The width of the close button, `_close->width()`. -/
  closeWidth : Int
  /-- The function `anim::interpolate(a, b, progress)` (defined with the
  animations, which the excerpt does not contain). -/
  interpolate : Int → Int → Rat → Int

/-- A fault of the panel: a dereference of a null pointer or a failed
`Expects`. -/
inductive PanelFault where
  /-- A member call through a null `_title`. -/
  | nullTitle
  /-- The precondition `Expects(!size.isEmpty())` of `setInnerSize` failed. -/
  | expectsNonEmptySize
deriving DecidableEq, Repr

/-- The brush of a `fillRect` call. -/
inductive Brush where
  /-- The style colour `st::windowShadowFgFallback`. -/
  | windowShadowFgFallback
  /-- The style colour `st::windowBg`. -/
  | windowBg
deriving DecidableEq, Repr

/-- The fields of a `QEvent` that `eventHook` reads. -/
structure QEvent where
  /-- The event type, `e->type()`. -/
  type : Nat
deriving DecidableEq, Repr

/-- The event type `QEvent::WindowDeactivate`. -/
def WindowDeactivate : Nat := 25

namespace SeparatePanel

/-- The widget call `setGeometry(x, y, w, h)`: sets the window rectangle. -/
def setGeometry (s : SeparatePanel) (x y w h : Int) : SeparatePanel :=
  { s with x := x, y := y, width := w, height := h }

/-- The widget call `update()`: asks for a repaint. -/
def update (s : SeparatePanel) : SeparatePanel :=
  { s with effects := s.effects ++ [PanelEffect.update] }

/-- The function `SeparatePanel::updateControlsGeometry`. -/
def updateControlsGeometry (env : PanelEnv) (s : SeparatePanel) : SeparatePanel :=
  let top := s._padding.top + env.separatePanelTitleHeight
  { s with body :=
      ⟨s._padding.left,
        top,
        s.width - s._padding.left - s._padding.right,
        s.height - top - s._padding.bottom⟩ }

/-- The handler `SeparatePanel::resizeEvent`. -/
def resizeEvent (env : PanelEnv) (s : SeparatePanel) : SeparatePanel :=
  updateControlsGeometry env s

/-- The function `SeparatePanel::initGeometry`, whose body is empty. -/
def initGeometry (s : SeparatePanel) (_size : QSize) : SeparatePanel := s

/-- The function `SeparatePanel::updateGeometry`. -/
def updateGeometry (env : PanelEnv) (s : SeparatePanel) (size : QSize) : SeparatePanel :=
  let s := setGeometry s
    s.x
    s.y
    (s._padding.left + size.width + s._padding.right)
    (s._padding.top + size.height + s._padding.bottom)
  let s := updateControlsGeometry env s
  update s

/-- The function `SeparatePanel::setInnerSize`. -/
def setInnerSize (env : PanelEnv) (s : SeparatePanel) (size : QSize) :
    Except PanelFault SeparatePanel :=
  if size.isEmpty then Except.error PanelFault.expectsNonEmptySize
  else if (rect s).isEmpty then Except.ok (initGeometry s size)
  else Except.ok (updateGeometry env s size)

/-- The function `SeparatePanel::updateTitlePosition`. The value
`_titleLeft.current(d)` is the value of the animation while it runs and `d`
when it does not run. -/
def updateTitlePosition (st : TitleStyle) (s : SeparatePanel) : SeparatePanel :=
  match s._title with
  | none => s
  | some title =>
    let progress := s._titleLeft.getD (if s.backToggled then 1 else 0)
    let left := st.interpolate
      st.separatePanelTitleLeft
      (st.backWidth + st.separatePanelTitleSkip)
      progress
    let moved := { title with
      left := s._padding.left + left
      top := s._padding.top + st.separatePanelTitleTop }
    { s with _title := some moved }

/-- The function `SeparatePanel::updateTitleGeometry`. -/
def updateTitleGeometry (st : TitleStyle) (s : SeparatePanel) (newWidth : Int) :
    Except PanelFault SeparatePanel :=
  match s._title with
  | none => Except.error PanelFault.nullTitle
  | some title =>
    let resized := { title with
      width := newWidth
        - s._padding.left - st.backWidth
        - s._padding.right - st.closeWidth }
    Except.ok (updateTitlePosition st { s with _title := some resized })

/-- A member call through `_title`. -/
def throughTitle (s : SeparatePanel) (f : TitleLabel → TitleLabel) :
    Except PanelFault SeparatePanel :=
  match s._title with
  | none => Except.error PanelFault.nullTitle
  | some title => Except.ok { s with _title := some (f title) }

/-- The function `SeparatePanel::setTitle`. -/
def setTitle (st : TitleStyle) (s : SeparatePanel) (title : String) :
    Except PanelFault SeparatePanel := do
  let created : TitleLabel :=
    { text := title, transparentForMouseEvents := false, shown := false
      width := 0, left := 0, top := 0 }
  let s := { s with _title := some created }
  let s ← throughTitle s (fun t => { t with transparentForMouseEvents := true })
  let s ← throughTitle s (fun t => { t with shown := true })
  updateTitleGeometry st s s.width

/-- The lambda subscribed to `widthValue()` in `initControls`. -/
def widthValueChanged (st : TitleStyle) (s : SeparatePanel) (width : Int) :
    Except PanelFault SeparatePanel :=
  let s := { s with
    backLeftTop := ⟨s._padding.left, s._padding.top⟩
    closeRightTop := ⟨s._padding.right, s._padding.top⟩ }
  if s._title.isSome then
    updateTitleGeometry st s width
  else Except.ok s

/-- The lambda subscribed to `_back->toggledValue()` in `initControls`: it
starts `_titleLeft` from `toggled ? 0. : 1.` with `updateTitlePosition` as the
callback. -/
def backToggledValueChanged (s : SeparatePanel) (toggled : Bool) : SeparatePanel :=
  { s with _titleLeft := some (if toggled then 0 else 1) }

/-- A step of the animation `_titleLeft`: it takes its next value, or stops
with `none`, and runs its callback `updateTitlePosition`. -/
def titleLeftStep (st : TitleStyle) (s : SeparatePanel) (value : Option Rat) :
    SeparatePanel :=
  updateTitlePosition st { s with _titleLeft := value }

/-- The function `SeparatePanel::setBackAllowed`; the call `_back->toggle`
changes the state of the button and runs the lambda subscribed to
`toggledValue()`. -/
def setBackAllowed (s : SeparatePanel) (allowed : Bool) : SeparatePanel :=
  if allowed != s.backToggled then
    backToggledValueChanged { s with backToggled := allowed } allowed
  else s

/-- The function `SeparatePanel::initControls`: both lambdas run once with
the current values when they are subscribed, then
`_back->hide(anim::type::instant)` toggles the back button off and
`_titleLeft.finish()` stops the animation. -/
def initControls (st : TitleStyle) (s : SeparatePanel) : Except PanelFault SeparatePanel := do
  let s ← widthValueChanged st s s.width
  let s := backToggledValueChanged s s.backToggled
  let s := setBackAllowed s false
  pure { s with _titleLeft := none }

/-- A call that concerns the title. -/
inductive TitleCall where
  /-- The call `setTitle(title)`. -/
  | setTitle (title : String)
  /-- A change of the panel width to `width`. -/
  | widthChanged (width : Int)
  /-- The call `setBackAllowed(allowed)`, a toggle of the back button. -/
  | setBackAllowed (allowed : Bool)
  /-- A step of the animation started by a toggle of the back button. -/
  | titleLeftStep (value : Option Rat)
deriving DecidableEq, Repr

/-- One call that concerns the title. -/
def titleCall (st : TitleStyle) (s : SeparatePanel) : TitleCall →
    Except PanelFault SeparatePanel
  | TitleCall.setTitle title => setTitle st s title
  | TitleCall.widthChanged width => widthValueChanged st { s with width := width } width
  | TitleCall.setBackAllowed allowed => Except.ok (setBackAllowed s allowed)
  | TitleCall.titleLeftStep value => Except.ok (titleLeftStep st s value)

/-- A sequence of calls that concern the title, first to last, stopping at
the first fault. -/
def titleCalls (st : TitleStyle) (s : SeparatePanel) :
    List TitleCall → Except PanelFault SeparatePanel
  | [] => Except.ok s
  | c :: rest =>
    match titleCall st s c with
    | Except.error f => Except.error f
    | Except.ok s1 => titleCalls st s1 rest

/-- The function `SeparatePanel::paintOpaqueBorder`: the `fillRect` calls on
the painter, first to last. -/
def paintOpaqueBorder (env : PanelEnv) (s : SeparatePanel) : List (QRect × Brush) :=
  let border := Brush.windowShadowFgFallback
  [ (⟨0, 0, s.width, s._padding.top⟩, border),
    (myrtlrect env s
        0
        s._padding.top
        s._padding.left
        (s.height - s._padding.top),
      border),
    (myrtlrect env s
        (s.width - s._padding.right)
        s._padding.top
        s._padding.right
        (s.height - s._padding.top),
      border),
    (⟨s._padding.left,
        s.height - s._padding.bottom,
        s.width - s._padding.left - s._padding.right,
        s._padding.bottom⟩,
      border),
    (⟨s._padding.left,
        s._padding.top,
        s.width - s._padding.left - s._padding.right,
        s.height - s._padding.top - s._padding.bottom⟩,
      Brush.windowBg) ]

/-- The number of `fillRect` calls of `paintOpaqueBorder` that paint the
point `p`. -/
def paintedTimes (env : PanelEnv) (s : SeparatePanel) (p : QPoint) : Nat :=
  (paintOpaqueBorder env s).countP (fun fill => fill.1.contains p)

/-- The function `SeparatePanel::toggleOpacityAnimation`: it returns at once
when `_visible == visible`, and its body ends there. -/
def toggleOpacityAnimation (s : SeparatePanel) (visible : Bool) : SeparatePanel :=
  if s._visible = visible then s else s

/-- The function `SeparatePanel::showAndActivate`. -/
def showAndActivate (s : SeparatePanel) : SeparatePanel :=
  let s := toggleOpacityAnimation s true
  { s with effects := s.effects ++
      [PanelEffect.raise, PanelEffect.setWindowStateActive,
        PanelEffect.activateWindow, PanelEffect.setFocus] }

/-- The function `SeparatePanel::setHideOnDeactivate`, called while
`isActiveWindow()` has the given value. -/
def setHideOnDeactivate (s : SeparatePanel) (hideOnDeactivate : Bool)
    (isActiveWindow : Bool) : SeparatePanel :=
  let s := { s with _hideOnDeactivate := hideOnDeactivate }
  if !s._hideOnDeactivate then
    showAndActivate s
  else if !isActiveWindow then
    let s := { s with effects := s.effects ++
      [PanelEffect.log "Export Info: Panel Hide On Inactive Change."] }
    (hideGetDuration s).1
  else s

/-- The function `SeparatePanel::eventHook`; the event then goes to
`RpWidget::eventHook`, whose result is returned. -/
def eventHook (s : SeparatePanel) (e : QEvent) (rpWidgetResult : Bool) :
    SeparatePanel × Bool :=
  let s :=
    if e.type = WindowDeactivate && s._hideOnDeactivate then
      let s := { s with effects := s.effects ++
        [PanelEffect.log "Export Info: Panel Hide On Inactive Window."] }
      (hideGetDuration s).1
    else s
  ({ s with effects := s.effects ++ [PanelEffect.rpWidgetEventHook e.type] }, rpWidgetResult)

/-- The function `SeparatePanel::finishClose`: `hide()`, then the lambda is
queued on the main loop. -/
def finishClose (s : SeparatePanel) : SeparatePanel :=
  { s with isHidden := true, effects := s.effects ++ [PanelEffect.queuedCloseCheck] }

/-- A call on one of the paths that are meant to show or hide the panel. -/
inductive ActivationCall where
  | showAndActivate
  | setHideOnDeactivate (hideOnDeactivate isActiveWindow : Bool)
  | eventHook (e : QEvent) (rpWidgetResult : Bool)
  | mousePressEvent (e : QMouseEvent)
deriving DecidableEq, Repr

/-- One call on a show or hide path. -/
def activationCall (env : PanelEnv) (s : SeparatePanel) : ActivationCall → SeparatePanel
  | ActivationCall.showAndActivate => showAndActivate s
  | ActivationCall.setHideOnDeactivate h a => setHideOnDeactivate s h a
  | ActivationCall.eventHook e r => (eventHook s e r).1
  | ActivationCall.mousePressEvent e => mousePressEvent env s e

/-- A sequence of calls on show or hide paths, first to last. -/
def activationCalls (env : PanelEnv) (s : SeparatePanel) (cs : List ActivationCall) :
    SeparatePanel :=
  cs.foldl (activationCall env) s

/-- Title constants for the examples, with linear interpolation rounded
down. -/
def sampleTitleStyle : TitleStyle :=
  { separatePanelTitleLeft := 22, separatePanelTitleSkip := 4, separatePanelTitleTop := 12
    backWidth := 40, closeWidth := 40
    interpolate := fun a b progress => a + Rat.floor (((b - a : Int) : Rat) * progress) }

end SeparatePanel

end Ui

/-! ## `window/window_main_menu.cpp` -/

namespace Window

/-- The label of a menu action: a language key passed to `lang`, or one of
the two literal labels of the support menu. -/
inductive ActionText where
  /-- The key `lng_create_group_title`: New group. -/
  | lng_create_group_title
  /-- The key `lng_create_channel_title`: New channel. -/
  | lng_create_channel_title
  /-- The key `lng_menu_contacts`: Contacts. -/
  | lng_menu_contacts
  /-- The key `lng_menu_calls`: Calls. -/
  | lng_menu_calls
  /-- The key `lng_profile_add_contact`: Add contact. -/
  | lng_profile_add_contact
  /-- The literal `Fix chats order`. -/
  | fixChatsOrder
  /-- The literal `Reload templates`. -/
  | reloadTemplates
  /-- The key `lng_menu_settings`: Settings. -/
  | lng_menu_settings
  /-- The key `lng_menu_night_mode`: Night mode. -/
  | lng_menu_night_mode
deriving DecidableEq, Repr

/-- The icon of a menu action, `&st::mainMenu...`; the second icon of each
call is the same name with `Over` appended. -/
inductive ActionIcon where
  | mainMenuNewGroup
  | mainMenuNewChannel
  | mainMenuContacts
  | mainMenuCalls
  | mainMenuFixOrder
  | mainMenuReload
  | mainMenuSettings
  | mainMenuNightMode
deriving DecidableEq, Repr

/-- The lambda attached to a menu action, named after what its body does. -/
inductive ActionCallback where
  | onShowNewGroup
  | onShowNewChannel
  | showContactsBox
  | showCallsBox
  | onShowAddContact
  | toggleFixChatsOrder
  | reloadSupportTemplates
  | showSettings
  | toggleNightModeAction
deriving DecidableEq, Repr

/-- The fields of a `QAction` in the menu. -/
structure QAction where
  text : ActionText
  callback : ActionCallback
  icon : ActionIcon
  checkable : Bool
  checked : Bool
deriving DecidableEq, Repr

/-- The setter `QAction::setCheckable` (Qt 5): nothing when the value is the
same, else it stores the value and clears the checked state. -/
def QAction.setCheckable (a : QAction) (b : Bool) : QAction :=
  if a.checkable = b then a else { a with checkable := b, checked := false }

/-- The setter `QAction::setChecked` (Qt 5): nothing when the action is not
checkable or the value is the same, else it stores the value. -/
def QAction.setChecked (a : QAction) (b : Bool) : QAction :=
  if !a.checkable || a.checked = b then a else { a with checked := b }

/-- A call into the theme engine. -/
inductive ThemeCall where
  | ToggleNightMode
  | KeepApplied
deriving DecidableEq, Repr

/-- The globals that the main menu reads and writes. -/
structure MenuGlobals where
  /-- The value of `Auth().supportMode()`. -/
  supportMode : Bool
  /-- The value of `Global::PhoneCallsEnabled()`. -/
  phoneCallsEnabled : Bool
  /-- The value of `Auth().settings().supportFixChatsOrder()`. -/
  supportFixChatsOrder : Bool
  /-- The value of `Window::Theme::IsNightMode()`. -/
  nightMode : Bool
  /-- The value of `App::formatPhone(Auth().user()->phone())`. -/
  formattedPhone : String
  /-- The calls made into the theme engine, oldest first. -/
  themeCalls : List ThemeCall
deriving DecidableEq, Repr

/-- Modelled from the spec: `Window::Theme::ToggleNightMode` belongs to the
theme engine, which the excerpt does not contain.  It negates the night-mode
flag; the call is logged. -/
def ToggleNightMode (g : MenuGlobals) : MenuGlobals :=
  { g with nightMode := !g.nightMode, themeCalls := g.themeCalls ++ [ThemeCall.ToggleNightMode] }

/-- Modelled from the spec: `Window::Theme::KeepApplied` belongs to the theme
engine, which the excerpt does not contain.  The call is logged. -/
def KeepApplied (g : MenuGlobals) : MenuGlobals :=
  { g with themeCalls := g.themeCalls ++ [ThemeCall.KeepApplied] }

/-- The member fields of a `MainMenu` that `refreshMenu` and the night-mode
switch use. -/
structure MainMenu where
  /-- The actions of `_menu`, first to last. -/
  actions : List QAction
  /-- The pointer `*_nightThemeAction`, a `QPointer<QAction>`: the position of
  the action in `actions`, or `none` when null.  A position that `actions` no
  longer has stands for a deleted action, which a `QPointer` reads as null. -/
  _nightThemeAction : Option Nat
  /-- Whether the timer `_nightThemeSwitch` is armed by `callOnce`. -/
  nightThemeSwitchArmed : Bool
  _phoneText : String
deriving DecidableEq, Repr

namespace MainMenu

/-- The call `_menu->clearActions()`. -/
def clearActions (m : MainMenu) : MainMenu := { m with actions := [] }

/-- The call `_menu->addAction(text, callback, icon, iconOver)`; returns the
menu and the pointer to the new action. -/
def addAction (m : MainMenu) (text : ActionText) (callback : ActionCallback)
    (icon : ActionIcon) : MainMenu × Nat :=
  ({ m with actions := m.actions ++
      [{ text := text, callback := callback, icon := icon
         checkable := false, checked := false }] },
    m.actions.length)

/-- A member call through an action pointer. -/
def withAction (m : MainMenu) (ptr : Nat) (f : QAction → QAction) : MainMenu :=
  match m.actions[ptr]? with
  | some a => { m with actions := m.actions.set ptr (f a) }
  | none => m

/-- The action that `*_nightThemeAction` points to, `none` when null. -/
def nightThemeAction (m : MainMenu) : Option QAction :=
  match m._nightThemeAction with
  | some ptr => m.actions[ptr]?
  | none => none

/-- The function `MainMenu::updatePhone`. -/
def updatePhone (g : MenuGlobals) (m : MainMenu) : MainMenu :=
  { m with _phoneText := g.formattedPhone }

/-- The function `MainMenu::refreshMenu`. -/
def refreshMenu (g : MenuGlobals) (m : MainMenu) : MainMenu :=
  let m := clearActions m
  let m :=
    if !g.supportMode then
      let m := (addAction m ActionText.lng_create_group_title
        ActionCallback.onShowNewGroup ActionIcon.mainMenuNewGroup).1
      let m := (addAction m ActionText.lng_create_channel_title
        ActionCallback.onShowNewChannel ActionIcon.mainMenuNewChannel).1
      let m := (addAction m ActionText.lng_menu_contacts
        ActionCallback.showContactsBox ActionIcon.mainMenuContacts).1
      if g.phoneCallsEnabled then
        (addAction m ActionText.lng_menu_calls
          ActionCallback.showCallsBox ActionIcon.mainMenuCalls).1
      else m
    else
      let m := (addAction m ActionText.lng_profile_add_contact
        ActionCallback.onShowAddContact ActionIcon.mainMenuContacts).1
      let r := addAction m ActionText.fixChatsOrder
        ActionCallback.toggleFixChatsOrder ActionIcon.mainMenuFixOrder
      let fix := r.2
      let m := withAction r.1 fix (fun a => a.setCheckable true)
      let m := withAction m fix (fun a => a.setChecked g.supportFixChatsOrder)
      (addAction m ActionText.reloadTemplates
        ActionCallback.reloadSupportTemplates ActionIcon.mainMenuReload).1
  let m := (addAction m ActionText.lng_menu_settings
    ActionCallback.showSettings ActionIcon.mainMenuSettings).1
  let m := { m with _nightThemeAction := none }
  let r := addAction m ActionText.lng_menu_night_mode
    ActionCallback.toggleNightModeAction ActionIcon.mainMenuNightMode
  let action := r.2
  let m := { r.1 with _nightThemeAction := some action }
  let m := withAction m action (fun a => a.setCheckable true)
  let m := withAction m action (fun a => a.setChecked g.nightMode)
  updatePhone g m

/-- The lambda of the night-mode action in `refreshMenu`: negates the checked
state of the action and arms `_nightThemeSwitch`, when the pointer is set. -/
def nightModeActionTriggered (m : MainMenu) : MainMenu :=
  match m._nightThemeAction, nightThemeAction m with
  | some ptr, some action =>
    let m := withAction m ptr (fun a => a.setChecked (!action.checked))
    { m with nightThemeSwitchArmed := true }
  | _, _ => m

/-- The callback given to `_nightThemeSwitch.setCallback` in the constructor.
It writes only to the theme engine, so it returns the globals. -/
def nightThemeSwitchCallback (g : MenuGlobals) (m : MainMenu) : MenuGlobals :=
  match nightThemeAction m with
  | some action =>
    let nightMode := g.nightMode
    if action.checked != nightMode then
      KeepApplied (ToggleNightMode g)
    else g
  | none => g

/-- The texts of the menu actions, first to last. -/
def actionTexts (m : MainMenu) : List ActionText := m.actions.map (fun a => a.text)

/-- The menu after `n` activations of the night-mode action. -/
def clickNightMode (n : Nat) (m : MainMenu) : MainMenu :=
  Nat.iterate nightModeActionTriggered n m

/-- The night-mode action exists, is checkable, and its checked state is
`checked`. -/
def NightActionChecked (checked : Bool) (m : MainMenu) : Prop :=
  ∃ action, nightThemeAction m = some action ∧
    action.checkable = true ∧ action.checked = checked

end MainMenu

end Window

/-! ## `old_settings/settings_inner_widget.cpp` -/

namespace OldSettings

/-- A user record, the target of a `UserData*`. -/
structure UserData where
  id : Nat
deriving DecidableEq, Repr

/-- A dereference of a null owning pointer. -/
inductive Fault where
  /-- A member call through a null `_blocks`. -/
  | nullBlocks
  /-- A member call through a null `_cover`. -/
  | nullCover
  /-- A member call through a null `_connectionType`. -/
  | nullConnectionType
  /-- A member call through a null `_useDefaultTheme`. -/
  | nullUseDefaultTheme
  /-- A member call through a null `_toggleNightTheme`. -/
  | nullToggleNightTheme
deriving DecidableEq, Repr

/-- The class of a settings block. -/
inductive BlockKind where
  | InfoWidget
  | NotificationsWidget
  | GeneralWidget
  | ScaleWidget
  | ChatSettingsWidget
  | BackgroundWidget
  | PrivacyWidget
  | AdvancedWidget
deriving DecidableEq, Repr

/-- A settings block as constructed, `object_ptr<Kind>(this, _self)`. -/
structure Block where
  kind : BlockKind
  self : Option UserData
deriving DecidableEq, Repr

/-- The globals an `InnerWidget` reads. -/
structure InnerEnv where
  /-- The value of `App::quitting()`. -/
  quitting : Bool
  /-- The value of `cRetina()`. -/
  retina : Bool
  /-- The value of `AuthSession::Exists() ? Auth().user().get() : nullptr`. -/
  authUser : Option UserData
  /-- The style constant `st::settingsBlocksTop`. -/
  settingsBlocksTop : Int
  /-- The height the cover takes at a width (computed by `CoverWidget`,
  which the excerpt does not contain). -/
  coverHeight : Int → Int
  /-- The height a layout with the given blocks takes at a width (computed by
  `VerticalLayout` and the block widgets, which the excerpt does not
  contain). -/
  layoutHeight : List Block → Int → Int
  /-- The position `y()` of the block at a place in the layout (set by
  `VerticalLayout`, which the excerpt does not contain). -/
  blockY : Nat → Int
  /-- The value of `GeneralWidget::getUpdateTop()` of the General block
  (`GeneralWidget` is not in the excerpt). -/
  generalUpdateTop : Int

/-- The state of the `CoverWidget` that the inner widget reads or writes. -/
structure CoverWidget where
  self : UserData
  shown : Bool
  contentLeft : Int
  width : Int
  y : Int
  height : Int
  visibleTop : Int
  visibleBottom : Int
deriving DecidableEq, Repr

/-- The state of the `Ui::VerticalLayout` held by `_blocks`. -/
structure VerticalLayout where
  rows : List Block
  shown : Bool
  left : Int
  y : Int
  width : Int
  height : Int
  /-- Whether the lambda of `refreshBlocks` is subscribed to `heightValue()`
  of this layout. -/
  heightWatched : Bool
  visibleTop : Int
  visibleBottom : Int
deriving DecidableEq, Repr

/-- The member fields and widget geometry of an `InnerWidget`. -/
structure InnerWidget where
  /-- The pointer `_cover`, `none` when null. -/
  _cover : Option CoverWidget
  /-- The pointer `_blocks`, `none` when null. -/
  _blocks : Option VerticalLayout
  _self : Option UserData
  _contentLeft : Int
  /-- The callback `_getUpdateTop`: `none` when empty, else the captured weak
  pointer `general` as the position of the block in `_blocks`. -/
  _getUpdateTop : Option Nat
  /-- The widget width, `width()`. -/
  width : Int
  /-- The widget height, `height()`. -/
  height : Int
deriving DecidableEq, Repr

namespace InnerWidget

/-- A cover as `object_ptr<CoverWidget>(this, _self)` creates it. -/
def newCover (self : UserData) : CoverWidget :=
  { self := self, shown := false, contentLeft := 0, width := 0, y := 0, height := 0
    visibleTop := 0, visibleBottom := 0 }

/-- A layout as `object_ptr<Ui::VerticalLayout>(this)` creates it. -/
def newLayout : VerticalLayout :=
  { rows := [], shown := false, left := 0, y := 0, width := 0, height := 0
    heightWatched := false, visibleTop := 0, visibleBottom := 0 }

/-- The lambda subscribed to `_blocks->heightValue()` in `refreshBlocks`:
`resize(width(), _blocks->y() + blocksHeight)`. -/
def blocksHeightChanged (w : InnerWidget) (blocksY blocksHeight : Int) : InnerWidget :=
  { w with height := blocksY + blocksHeight }

/-- The function `InnerWidget::resizeGetHeight`; returns the widget and the
returned height. The subscribed lambda runs when `resizeToWidth` changes the
height of a watched layout. -/
def resizeGetHeight (env : InnerEnv) (w : InnerWidget) (newWidth : Int) :
    Except Fault (InnerWidget × Int) :=
  let w :=
    match w._cover with
    | some cover =>
      { w with _cover := some { cover with
          contentLeft := w._contentLeft
          width := newWidth
          height := env.coverHeight newWidth } }
    | none => w
  match w._blocks with
  | none => Except.error Fault.nullBlocks
  | some blocks =>
    let resized := { blocks with
      width := newWidth - 2 * w._contentLeft
      height := env.layoutHeight blocks.rows (newWidth - 2 * w._contentLeft) }
    let w :=
      if blocks.heightWatched && resized.height != blocks.height then
        blocksHeightChanged w resized.y resized.height
      else w
    let moved := { resized with
      left := w._contentLeft
      y := (match w._cover with
            | some cover => cover.y + cover.height
            | none => 0) + env.settingsBlocksTop }
    Except.ok ({ w with _blocks := some moved }, w.height)

/-- Modelled from the spec: `LayerInner::resizeToWidth(newWidth, contentLeft)`
is declared in a header the excerpt does not contain. It stores the content
left, calls the virtual `resizeGetHeight` and resizes the widget to the given
width and the returned height. -/
def resizeToWidth (env : InnerEnv) (w : InnerWidget) (newWidth contentLeft : Int) :
    Except Fault InnerWidget :=
  match resizeGetHeight env { w with _contentLeft := contentLeft } newWidth with
  | Except.error f => Except.error f
  | Except.ok (w1, h) => Except.ok { w1 with width := newWidth, height := h }

/-- The call `_blocks->add(object_ptr<Kind>(this, _self))`; returns the widget
and the pointer to the new block. -/
def addBlock (env : InnerEnv) (w : InnerWidget) (kind : BlockKind) :
    Except Fault (InnerWidget × Nat) :=
  match w._blocks with
  | none => Except.error Fault.nullBlocks
  | some blocks =>
    let rows := blocks.rows ++ [{ kind := kind, self := w._self }]
    let grown := { blocks with rows := rows, height := env.layoutHeight rows blocks.width }
    let w :=
      if blocks.heightWatched && grown.height != blocks.height then
        blocksHeightChanged w grown.y grown.height
      else w
    Except.ok ({ w with _blocks := some grown }, blocks.rows.length)

/-- The function `InnerWidget::refreshBlocks`. -/
def refreshBlocks (env : InnerEnv) (w : InnerWidget) : Except Fault InnerWidget :=
  if env.quitting then
    Except.ok { w with _cover := none, _blocks := none }
  else do
    let w := { w with _cover := match w._self with
                                | some self => some (newCover self)
                                | none => none }
    let w := { w with _blocks := some newLayout }
    let w ← resizeToWidth env w w.width w._contentLeft
    let w ←
      if w._self.isSome then do
        let r ← addBlock env w BlockKind.InfoWidget
        let r ← addBlock env r.1 BlockKind.NotificationsWidget
        pure r.1
      else pure w
    let r ← addBlock env w BlockKind.GeneralWidget
    let general := r.2
    let w := { r.1 with _getUpdateTop := some general }
    let w ←
      if !env.retina then do
        let r ← addBlock env w BlockKind.ScaleWidget
        pure r.1
      else pure w
    let w ←
      if w._self.isSome then do
        let r ← addBlock env w BlockKind.ChatSettingsWidget
        let r ← addBlock env r.1 BlockKind.BackgroundWidget
        let r ← addBlock env r.1 BlockKind.PrivacyWidget
        pure r.1
      else pure w
    let r ← addBlock env w BlockKind.AdvancedWidget
    let w := r.1
    let w :=
      match w._cover with
      | some cover => { w with _cover := some { cover with shown := true } }
      | none => w
    match w._blocks with
    | none => Except.error Fault.nullBlocks
    | some blocks =>
      let blocks := { blocks with shown := true }
      let w := { w with _blocks := some { blocks with heightWatched := true } }
      pure (blocksHeightChanged w blocks.y blocks.height)

/-- The function `InnerWidget::fullRebuild`. -/
def fullRebuild (env : InnerEnv) (w : InnerWidget) : Except Fault InnerWidget :=
  refreshBlocks env { w with _self := env.authUser }

/-- The constructor `InnerWidget::InnerWidget`, for a widget of the given
size: `_blocks(this)`, `_self(...)`, then `refreshBlocks()`. -/
def construct (env : InnerEnv) (width height : Int) : Except Fault InnerWidget :=
  refreshBlocks env
    { _cover := none
      _blocks := some newLayout
      _self := env.authUser
      _contentLeft := 0
      _getUpdateTop := none
      width := width
      height := height }

/-- Modelled from the spec: `setChildVisibleTopBottom(child, top, bottom)` is a
helper of the widget base class that the excerpt does not contain. It does
nothing for a null child and else passes the range, shifted by the position
of the child, to the child. The function is
`InnerWidget::visibleTopBottomUpdated`, which calls it for `_cover` and for
`_blocks`. -/
def visibleTopBottomUpdated (w : InnerWidget) (visibleTop visibleBottom : Int) :
    InnerWidget :=
  let w :=
    match w._cover with
    | some cover => { w with _cover := some { cover with
        visibleTop := visibleTop - cover.y
        visibleBottom := visibleBottom - cover.y } }
    | none => w
  match w._blocks with
  | some blocks => { w with _blocks := some { blocks with
      visibleTop := visibleTop - blocks.y
      visibleBottom := visibleBottom - blocks.y } }
  | none => w

/-- A call that reaches the inner widget after its construction. -/
inductive Call where
  | fullRebuild
  | refreshBlocks
  | resizeGetHeight (newWidth : Int)
  | visibleTopBottomUpdated (visibleTop visibleBottom : Int)
deriving DecidableEq, Repr

/-- One call, made while the globals are `env`. -/
def call (w : InnerWidget) (c : InnerEnv × Call) : Except Fault InnerWidget :=
  match c.2 with
  | Call.fullRebuild => fullRebuild c.1 w
  | Call.refreshBlocks => refreshBlocks c.1 w
  | Call.resizeGetHeight newWidth =>
    match resizeGetHeight c.1 w newWidth with
    | Except.error f => Except.error f
    | Except.ok r => Except.ok r.1
  | Call.visibleTopBottomUpdated t b => Except.ok (visibleTopBottomUpdated w t b)

/-- A sequence of calls, first to last, stopping at the first fault. -/
def calls (w : InnerWidget) : List (InnerEnv × Call) → Except Fault InnerWidget
  | [] => Except.ok w
  | c :: rest =>
    match call w c with
    | Except.error f => Except.error f
    | Except.ok w1 => calls w1 rest

/-- The classes of the blocks in `_blocks`, first to last; empty when the
pointer is null. -/
def blockKinds (w : InnerWidget) : List BlockKind :=
  match w._blocks with
  | some blocks => blocks.rows.map (fun b => b.kind)
  | none => []

/-- Globals of a running application with a logged-in user, where every
cover is 120 high and every block 50. -/
def sampleEnv : InnerEnv :=
  { quitting := false, retina := false, authUser := some ⟨1⟩
    settingsBlocksTop := 8
    coverHeight := fun _ => 120
    layoutHeight := fun rows _ => 50 * rows.length
    blockY := fun k => 50 * k
    generalUpdateTop := 30 }

/-- The globals of `sampleEnv` while the application is quitting. -/
def sampleQuittingEnv : InnerEnv := { sampleEnv with quitting := true }

/-- A widget of size 400 by 300 for user 1 before its first `refreshBlocks`. -/
def sampleWidget : InnerWidget :=
  { _cover := none
    _blocks := some newLayout
    _self := some ⟨1⟩
    _contentLeft := 0
    _getUpdateTop := none
    width := 400
    height := 300 }

/-- The constructor followed by a sequence of calls. -/
def constructThenCalls (env : InnerEnv) (width height : Int)
    (cs : List (InnerEnv × Call)) : Except Fault InnerWidget :=
  match construct env width height with
  | Except.error f => Except.error f
  | Except.ok w => calls w cs

/-- The weak pointer `general` that the lambda of `refreshBlocks` captures:
the block it refers to, `none` once that block is destroyed. A block dies
with the layout that owns it. -/
def generalBlock (w : InnerWidget) (general : Nat) : Option Block :=
  match w._blocks with
  | some blocks => blocks.rows[general]?
  | none => none

/-- The lambda that `refreshBlocks` stores in `_getUpdateTop`, for the
captured weak pointer `general`. -/
def getUpdateTopLambda (env : InnerEnv) (w : InnerWidget) (general : Nat) :
    Except Fault Int :=
  match generalBlock w general with
  | none => Except.ok (-1)
  | some _ =>
    let top := env.generalUpdateTop
    if top ≥ 0 then
      match w._blocks with
      | none => Except.error Fault.nullBlocks
      | some blocks => Except.ok (blocks.y + env.blockY general + top)
    else Except.ok (-1)

/-- The function `InnerWidget::getUpdateTop`. -/
def getUpdateTop (env : InnerEnv) (w : InnerWidget) : Except Fault Int :=
  match w._getUpdateTop with
  | some general => getUpdateTopLambda env w general
  | none => Except.ok (-1)

/-- The constructor, a sequence of calls, then `getUpdateTop`. -/
def constructCallsGetUpdateTop (env : InnerEnv) (width height : Int)
    (cs : List (InnerEnv × Call)) (last : InnerEnv) : Except Fault Int :=
  match constructThenCalls env width height cs with
  | Except.error f => Except.error f
  | Except.ok w => getUpdateTop last w

end InnerWidget

end OldSettings

/-! ## `old_settings/settings_advanced_widget.cpp` -/

namespace OldSettings

/-- The text of a link row, a language key passed to `lang`. -/
inductive RowText where
  | lng_settings_manage_local_storage
  | lng_connection_type
  | lng_settings_ask_question
  | lng_settings_bg_use_default
  | lng_settings_disable_night_theme
  | lng_settings_enable_night_theme
  | lng_settings_faq
  | lng_settings_logout
deriving DecidableEq, Repr

/-- The text of the connection link. -/
inductive ConnectionText where
  | lng_connection_auto_connecting
  | lng_connection_auto (transport : String)
  | lng_connection_proxy_connecting
  | lng_connection_proxy (transport : String)
deriving DecidableEq, Repr

/-- The slot a row is connected to. -/
inductive Slot where
  | onManageLocalStorage
  | onConnectionType
  | onAskQuestion
  | onUseDefaultTheme
  | onToggleNightTheme
  | onTelegramFAQ
  | onLogOut
deriving DecidableEq, Repr

/-- A `Ui::LinkButton` row made by `createChildRow`. -/
structure LinkRow where
  margin : Qt.QMargins
  text : RowText
  slot : Slot
deriving DecidableEq, Repr

/-- A `LabeledLink` row made by `createChildRow`, of type `Primary`. -/
structure LabeledLinkRow where
  margin : Qt.QMargins
  label : RowText
  linkText : ConnectionText
  slot : Slot
deriving DecidableEq, Repr

/-- A `Ui::SlideWrap<Ui::LinkButton>` row made by `createChildRow`. -/
structure SlideLinkRow where
  margin : Qt.QMargins
  padding : Qt.QMargins
  text : RowText
  slot : Slot
  /-- Whether the wrap is toggled to shown. -/
  toggled : Bool
deriving DecidableEq, Repr

/-- The globals an `AdvancedWidget` reads. -/
structure AdvancedEnv where
  /-- The value of `Window::Theme::SuggestThemeReset()`. -/
  suggestThemeReset : Bool
  /-- The value of `Window::Theme::IsNightMode()`. -/
  nightMode : Bool
  /-- The value of `Global::UseProxy()`. -/
  useProxy : Bool
  /-- The value of `MTP::dctransport()`. -/
  transport : String
  /-- Whether `App::main()` is not null. -/
  mainExists : Bool
  /-- The style constant `st::settingsSmallSkip`. -/
  settingsSmallSkip : Int
  /-- The style constant `st::settingsLargeSkip`. -/
  settingsLargeSkip : Int
deriving DecidableEq, Repr

/-- A request handed to `MTP::send`. -/
inductive MtpRequest where
  | MTPhelp_GetSupport
deriving DecidableEq, Repr

/-- The answer `MTPhelp_Support` as `supportGot` reads it. -/
structure MTPhelp_Support where
  /-- Whether `support.type() == mtpc_help_support`. -/
  isHelpSupport : Bool
  /-- The result of `App::feedUsers` on the user of the answer, `none` when
  null. -/
  fedUser : Option UserData
deriving DecidableEq, Repr

/-- What lies outside the widget: the request layer and the history view. -/
structure World where
  /-- The requests handed to `MTP::send`, oldest first. -/
  sent : List MtpRequest
  /-- The request id that `MTP::send` returns for its `k`-th request,
  counted from zero. -/
  requestIds : Nat → Int
  /-- The users passed to `Ui::showPeerHistory`, oldest first. -/
  shownHistories : List UserData

/-- Modelled from the spec: `MTP::send` belongs to the request layer, which
the excerpt does not contain. It takes the request and returns its request
id. -/
def World.send (world : World) (request : MtpRequest) : Int × World :=
  (world.requestIds world.sent.length, { world with sent := world.sent ++ [request] })

/-- The member fields of an `AdvancedWidget`. -/
structure AdvancedWidget where
  /-- The user given to the constructor, read by `self()`. -/
  self : Option UserData
  _manageLocalStorage : Option LinkRow
  _connectionType : Option LabeledLinkRow
  _askQuestion : Option LinkRow
  _useDefaultTheme : Option SlideLinkRow
  _toggleNightTheme : Option LinkRow
  _telegramFAQ : Option LinkRow
  _logOut : Option LinkRow
  _supportGetRequest : Int
deriving DecidableEq, Repr

namespace AdvancedWidget

/-- The function `AdvancedWidget::getNightThemeToggleText`. -/
def getNightThemeToggleText (env : AdvancedEnv) : RowText :=
  if env.nightMode then RowText.lng_settings_disable_night_theme
  else RowText.lng_settings_enable_night_theme

/-- The function `AdvancedWidget::connectionTypeUpdated`. -/
def connectionTypeUpdated (env : AdvancedEnv) (w : AdvancedWidget) :
    Except Fault AdvancedWidget :=
  let connection :=
    let transport := env.transport
    if !env.useProxy then
      if transport.isEmpty then ConnectionText.lng_connection_auto_connecting
      else ConnectionText.lng_connection_auto transport
    else
      if transport.isEmpty then ConnectionText.lng_connection_proxy_connecting
      else ConnectionText.lng_connection_proxy transport
  match w._connectionType with
  | none => Except.error Fault.nullConnectionType
  | some row => Except.ok { w with _connectionType := some { row with linkText := connection } }

/-- The function `AdvancedWidget::createControls`, in a build where
`TDESKTOP_DISABLE_NETWORK_PROXY` is defined or not as `networkProxyDisabled`
says. -/
def createControls (networkProxyDisabled : Bool) (env : AdvancedEnv) (w : AdvancedWidget) :
    Except Fault AdvancedWidget := do
  let marginSmall : Qt.QMargins := ⟨0, 0, 0, env.settingsSmallSkip⟩
  let marginLarge : Qt.QMargins := ⟨0, 0, 0, env.settingsLargeSkip⟩
  let marginLocalStorage := if !networkProxyDisabled then marginSmall else marginLarge
  let w :=
    if w.self.isSome then
      let row : LinkRow :=
        { margin := marginLocalStorage
          text := RowText.lng_settings_manage_local_storage
          slot := Slot.onManageLocalStorage }
      { w with _manageLocalStorage := some row }
    else w
  let w ←
    if !networkProxyDisabled then
      let row : LabeledLinkRow :=
        { margin := marginLarge
          label := RowText.lng_connection_type
          linkText := ConnectionText.lng_connection_auto_connecting
          slot := Slot.onConnectionType }
      connectionTypeUpdated env { w with _connectionType := some row }
    else pure w
  let w ←
    if w.self.isSome then
      let row : LinkRow :=
        { margin := marginSmall
          text := RowText.lng_settings_ask_question
          slot := Slot.onAskQuestion }
      pure { w with _askQuestion := some row }
    else do
      let slidedPadding : Qt.QMargins :=
        ⟨0, Int.tdiv marginLarge.bottom 2, 0,
          marginLarge.bottom - Int.tdiv marginLarge.bottom 2⟩
      let row : SlideLinkRow :=
        { margin := marginLarge
          padding := slidedPadding
          text := RowText.lng_settings_bg_use_default
          slot := Slot.onUseDefaultTheme
          toggled := true }
      let w := { w with _useDefaultTheme := some row }
      let w ←
        if !env.suggestThemeReset then
          match w._useDefaultTheme with
          | none => Except.error Fault.nullUseDefaultTheme
          | some row => pure { w with _useDefaultTheme := some { row with toggled := false } }
        else pure w
      let night : LinkRow :=
        { margin := marginLarge
          text := getNightThemeToggleText env
          slot := Slot.onToggleNightTheme }
      pure { w with _toggleNightTheme := some night }
  let faq : LinkRow :=
    { margin := marginLarge, text := RowText.lng_settings_faq, slot := Slot.onTelegramFAQ }
  let w := { w with _telegramFAQ := some faq }
  if w.self.isSome then
    let marginLogout : Qt.QMargins := ⟨0, 0, 0, 2 * env.settingsLargeSkip⟩
    let row : LinkRow :=
      { margin := marginLogout, text := RowText.lng_settings_logout, slot := Slot.onLogOut }
    pure { w with _logOut := some row }
  else pure w

/-- The constructor `AdvancedWidget::AdvancedWidget(parent, self)`: every row
pointer starts null, `_supportGetRequest` starts at zero, then
`createControls()` runs. -/
def construct (networkProxyDisabled : Bool) (env : AdvancedEnv) (self : Option UserData) :
    Except Fault AdvancedWidget :=
  createControls networkProxyDisabled env
    { self := self
      _manageLocalStorage := none
      _connectionType := none
      _askQuestion := none
      _useDefaultTheme := none
      _toggleNightTheme := none
      _telegramFAQ := none
      _logOut := none
      _supportGetRequest := 0 }

/-- The function `AdvancedWidget::checkNonDefaultTheme`. -/
def checkNonDefaultTheme (env : AdvancedEnv) (w : AdvancedWidget) :
    Except Fault AdvancedWidget :=
  if w.self.isSome then
    Except.ok w
  else
    match w._useDefaultTheme with
    | none => Except.error Fault.nullUseDefaultTheme
    | some row =>
      let w := { w with _useDefaultTheme := some { row with toggled := env.suggestThemeReset } }
      match w._toggleNightTheme with
      | none => Except.error Fault.nullToggleNightTheme
      | some night =>
        let night := { night with text := getNightThemeToggleText env }
        Except.ok { w with _toggleNightTheme := some night }

/-- The function `AdvancedWidget::onAskQuestionSure`. -/
def onAskQuestionSure (w : AdvancedWidget) (world : World) : AdvancedWidget × World :=
  if w._supportGetRequest ≠ 0 then (w, world)
  else
    let r := world.send MtpRequest.MTPhelp_GetSupport
    ({ w with _supportGetRequest := r.1 }, r.2)

/-- The function `AdvancedWidget::supportGot`. -/
def supportGot (env : AdvancedEnv) (w : AdvancedWidget) (world : World)
    (support : MTPhelp_Support) : AdvancedWidget × World :=
  if !env.mainExists then (w, world)
  else if support.isHelpSupport then
    match support.fedUser with
    | some user => (w, { world with shownHistories := world.shownHistories ++ [user] })
    | none => (w, world)
  else (w, world)

/-- A call that reaches the advanced widget after its construction. -/
inductive Call where
  | checkNonDefaultTheme
  | connectionTypeUpdated
  | onAskQuestionSure
  | supportGot (support : MTPhelp_Support)
deriving DecidableEq, Repr

/-- A call of the support-request bookkeeping. -/
def Call.isSupportCall : Call → Bool
  | Call.onAskQuestionSure => true
  | Call.supportGot _ => true
  | _ => false

/-- One call, made while the globals are `c.1`. The function
`connectionTypeUpdated` and its subscription exist only in a build with the
network proxy; in a build without it the event has no handler. -/
def call (networkProxyDisabled : Bool) (s : AdvancedWidget × World)
    (c : AdvancedEnv × Call) : Except Fault (AdvancedWidget × World) :=
  match c.2 with
  | Call.checkNonDefaultTheme =>
    match checkNonDefaultTheme c.1 s.1 with
    | Except.error f => Except.error f
    | Except.ok w => Except.ok (w, s.2)
  | Call.connectionTypeUpdated =>
    if networkProxyDisabled then Except.ok s
    else
      match connectionTypeUpdated c.1 s.1 with
      | Except.error f => Except.error f
      | Except.ok w => Except.ok (w, s.2)
  | Call.onAskQuestionSure => Except.ok (onAskQuestionSure s.1 s.2)
  | Call.supportGot support => Except.ok (supportGot c.1 s.1 s.2 support)

/-- A sequence of calls, first to last, stopping at the first fault. -/
def calls (networkProxyDisabled : Bool) (s : AdvancedWidget × World) :
    List (AdvancedEnv × Call) → Except Fault (AdvancedWidget × World)
  | [] => Except.ok s
  | c :: rest =>
    match call networkProxyDisabled s c with
    | Except.error f => Except.error f
    | Except.ok s1 => calls networkProxyDisabled s1 rest

/-- The rows that later calls dereference exist: the two theme rows when
there is no self user, the connection row in a build with the proxy. -/
def RowsCreated (networkProxyDisabled : Bool) (self : Option UserData)
    (w : AdvancedWidget) : Prop :=
  w.self = self ∧
  (self = none → w._useDefaultTheme.isSome = true ∧ w._toggleNightTheme.isSome = true) ∧
  (networkProxyDisabled = false → w._connectionType.isSome = true)

/-- Globals with the day theme and no proxy in use. -/
def sampleEnv : AdvancedEnv :=
  { suggestThemeReset := false, nightMode := false
    useProxy := false, transport := "", mainExists := true
    settingsSmallSkip := 10, settingsLargeSkip := 23 }

/-- A world where nothing was sent and the `k`-th request gets id `k + 1`. -/
def sampleWorld : World :=
  { sent := [], requestIds := fun k => (k : Int) + 1, shownHistories := [] }

/-- A widget for user 1 with no rows, before any request. -/
def sampleWidget : AdvancedWidget :=
  { self := some ⟨1⟩
    _manageLocalStorage := none
    _connectionType := none
    _askQuestion := none
    _useDefaultTheme := none
    _toggleNightTheme := none
    _telegramFAQ := none
    _logOut := none
    _supportGetRequest := 0 }

end AdvancedWidget

end OldSettings

/-! ## `boxes/share_box.h` -/

/-- The answer `MTPcontacts_Found` of a username search, as lists of peer
ids. -/
structure MTPcontacts_Found where
  my_results : List Nat
  results : List Nat
deriving DecidableEq, Repr

/-- The fields of an `RPCError`. -/
structure RPCError where
  code : Int
  type : String
deriving DecidableEq, Repr

/-- The search fields of a `ShareBox`, as `share_box.h` declares them. The
maps `QMap` are lists of key and value pairs. -/
structure ShareBox where
  _hasSelected : Bool
  _peopleQuery : String
  _peopleFull : Bool
  _peopleRequest : Int
  /-- The map `_peopleCache` from query string to result. -/
  _peopleCache : List (String × MTPcontacts_Found)
  /-- The map `_peopleQueries` from request id to query string. -/
  _peopleQueries : List (Int × String)
  /-- The failures written to the log, oldest first. -/
  loggedFailures : List (Int × RPCError)
deriving DecidableEq, Repr

namespace ShareBox

/-- The value stored in `_peopleCache` for a query, `none` when absent. -/
def cached (s : ShareBox) (query : String) : Option MTPcontacts_Found :=
  (s._peopleCache.find? (fun kv => kv.1 == query)).map (fun kv => kv.2)

/-- Modelled from the spec: `ShareBox::peopleFailed` is defined in
`share_box.cpp`, which the excerpt does not contain; `share_box.h` declares it
as `bool peopleFailed(const RPCError &error, mtpRequestId requestId)`. The
spec says the failure of the search request is logged or ignored and the
cached state is left unchanged. The model writes the failure to the log,
keeps every field of the box, and returns `true` for an error it has taken. -/
def peopleFailed (s : ShareBox) (error : RPCError) (requestId : Int) : ShareBox × Bool :=
  ({ s with loggedFailures := s.loggedFailures ++ [(requestId, error)] }, true)

end ShareBox

/-! ## Theorems -/

namespace Ui

open Qt

namespace SeparatePanel

theorem dispatchAll_append (env : PanelEnv) (s : SeparatePanel)
    (es fs : List MouseInput) :
    dispatchAll env s (es ++ fs) = dispatchAll env (dispatchAll env s es) fs := by
  simp [dispatchAll, List.foldl_append]

/-- Events that keep a drag leave the drag flag and both drag start points
as they are. -/
theorem dispatchAll_keepsDrag (env : PanelEnv) (mid : List MouseInput) :
    ∀ s : SeparatePanel, s._dragging = true →
      (∀ i ∈ mid, MouseInput.keepsDrag i = true) →
      (dispatchAll env s mid)._dragging = true ∧
      (dispatchAll env s mid)._dragStartMousePosition = s._dragStartMousePosition ∧
      (dispatchAll env s mid)._dragStartMyPosition = s._dragStartMyPosition := by
  induction mid with
  | nil => intro s h _; simp [dispatchAll, h]
  | cons i rest ih =>
    intro s h hall
    have hi : MouseInput.keepsDrag i = true := hall i (List.mem_cons_self _ _)
    have hrest : ∀ j ∈ rest, MouseInput.keepsDrag j = true :=
      fun j hj => hall j (List.mem_cons_of_mem _ hj)
    have step : (dispatch env s i)._dragging = true ∧
        (dispatch env s i)._dragStartMousePosition = s._dragStartMousePosition ∧
        (dispatch env s i)._dragStartMyPosition = s._dragStartMyPosition := by
      cases i with
      | press e =>
        have hb : e.button ≠ LeftButton := by simpa [MouseInput.keepsDrag] using hi
        simp [dispatch, mousePressEvent, hb, h]
      | move e =>
        have hb : (e.buttons &&& LeftButton) ≠ 0 := by
          simpa [MouseInput.keepsDrag] using hi
        simp [dispatch, mouseMoveEvent, hb, h, move]
      | release e =>
        have hb : e.button ≠ LeftButton := by simpa [MouseInput.keepsDrag] using hi
        simp [dispatch, mouseReleaseEvent, hb, h]
    obtain ⟨h1, h2, h3⟩ := ih (dispatch env s i) step.1 hrest
    have hd : dispatchAll env s (i :: rest) = dispatchAll env (dispatch env s i) rest := rfl
    rw [hd]
    exact ⟨h1, h2.trans step.2.1, h3.trans step.2.2⟩

/-- C1. Drag to move. A move event that arrives while `_dragging` is set and
the left button is held moves the panel to
`_dragStartMyPosition + (e.globalPos - _dragStartMousePosition)`. So after a
left press inside the drag area at screen point `m0` with the panel at `p0`,
followed by any events that keep the left button held, a move event at screen
point `m` puts the panel at `p0 + (m - m0)`, whatever the events in between
were. -/
theorem C1_drag_moves_panel (env : PanelEnv) (s t : SeparatePanel)
    (e0 e : QMouseEvent) (mid : List MouseInput)
    (hleft : e0.button = LeftButton)
    (harea : (dragArea env s).contains e0.pos = true)
    (hmid : ∀ i ∈ mid, MouseInput.keepsDrag i = true)
    (hheld : (e.buttons &&& LeftButton) ≠ 0)
    (ht : t._dragging = true) :
    ((mouseMoveEvent t e).x = t._dragStartMyPosition.x
        + (e.globalPos.x - t._dragStartMousePosition.x) ∧
      (mouseMoveEvent t e).y = t._dragStartMyPosition.y
        + (e.globalPos.y - t._dragStartMousePosition.y)) ∧
    ((dispatchAll env s (MouseInput.press e0 :: mid ++ [MouseInput.move e])).x
        = s.x + (e.globalPos.x - e0.globalPos.x) ∧
      (dispatchAll env s (MouseInput.press e0 :: mid ++ [MouseInput.move e])).y
        = s.y + (e.globalPos.y - e0.globalPos.y)) := by
  have single : ∀ u : SeparatePanel, u._dragging = true →
      (mouseMoveEvent u e).x = u._dragStartMyPosition.x
          + (e.globalPos.x - u._dragStartMousePosition.x) ∧
      (mouseMoveEvent u e).y = u._dragStartMyPosition.y
          + (e.globalPos.y - u._dragStartMousePosition.y) := by
    intro u hu
    simp [mouseMoveEvent, hu, hheld, move, QPoint.add, QPoint.sub]
  refine ⟨single t ht, ?_⟩
  have hsplit : dispatchAll env s (MouseInput.press e0 :: mid ++ [MouseInput.move e])
      = mouseMoveEvent (dispatchAll env (mousePressEvent env s e0) mid) e := by
    have : MouseInput.press e0 :: mid ++ [MouseInput.move e]
        = [MouseInput.press e0] ++ (mid ++ [MouseInput.move e]) := rfl
    rw [this, dispatchAll_append, dispatchAll_append]
    rfl
  have hpress : (mousePressEvent env s e0)._dragging = true ∧
      (mousePressEvent env s e0)._dragStartMousePosition = e0.globalPos ∧
      (mousePressEvent env s e0)._dragStartMyPosition = ⟨s.x, s.y⟩ := by
    simp [mousePressEvent, hleft, harea]
  obtain ⟨k1, k2, k3⟩ := dispatchAll_keepsDrag env mid _ hpress.1 hmid
  rw [hsplit]
  have hs := single _ k1
  rw [k2, k3, hpress.2.1, hpress.2.2] at hs
  exact hs

/-- C1, witness: a press at `(5, 5)`, two events that keep the drag, then a
move to screen point `(400, 260)`. -/
theorem C1_drag_moves_panel_witness :
    (dispatchAll sampleEnv samplePanel
      (MouseInput.press (leftAt 5 5) ::
        [MouseInput.move (leftAt 9 9), MouseInput.press
          { button := RightButton, buttons := 3, pos := ⟨9, 9⟩, globalPos := ⟨309, 209⟩ }]
        ++ [MouseInput.move (leftAt 100 60)])).x = 300 + (400 - 305) :=
  (C1_drag_moves_panel sampleEnv samplePanel
    { samplePanel with _dragging := true }
    (leftAt 5 5) (leftAt 100 60)
    [MouseInput.move (leftAt 9 9), MouseInput.press
      { button := RightButton, buttons := 3, pos := ⟨9, 9⟩, globalPos := ⟨309, 209⟩ }]
    (by decide) (by decide) (by decide) (by decide) (by decide)).2.1

/-- A press that does not start a drag leaves `_dragging` as it is. -/
theorem mousePressEvent_dragging_of_not_started (env : PanelEnv) (u : SeparatePanel)
    (e : QMouseEvent)
    (h : ¬ (e.button = LeftButton ∧ (dragArea env u).contains e.pos = true)) :
    (mousePressEvent env u e)._dragging = u._dragging := by
  unfold mousePressEvent
  by_cases hb : e.button = LeftButton
  · have hc : (dragArea env u).contains e.pos = false := by
      cases hcon : (dragArea env u).contains e.pos with
      | false => rfl
      | true => exact absurd ⟨hb, hcon⟩ h
    by_cases hh : (!(rect u).contains e.pos && u._hideOnDeactivate) = true
    · simp [hb, hc, hh, hideGetDuration]
    · simp [hb, hc, hh]
  · simp [hb]

/-- The drag flag is explained by the history, for the drag area the handler
computes. -/
theorem dragging_explained (env : PanelEnv) (s : SeparatePanel)
    (h0 : s._dragging = false) (es : List MouseInput) :
    (dispatchAll env s es)._dragging = true → DragExplained dragArea env s es := by
  induction es using List.reverseRecOn with
  | nil =>
    intro h
    simp [dispatchAll, h0] at h
  | append_singleton l a ih =>
    intro h
    have hstep : dispatchAll env s (l ++ [a]) = dispatch env (dispatchAll env s l) a := by
      rw [dispatchAll_append]; rfl
    rw [hstep] at h
    have extend : (dispatchAll env s l)._dragging = true →
        MouseInput.endsDrag a = false → DragExplained dragArea env s (l ++ [a]) := by
      intro hu ha
      obtain ⟨pre, e1, post, heq, hb, hin, hpost⟩ := ih hu
      refine ⟨pre, e1, post ++ [a], ?_, hb, hin, ?_⟩
      · rw [heq]; simp
      · intro i hi
        rcases List.mem_append.mp hi with hi | hi
        · exact hpost i hi
        · rw [List.mem_singleton.mp hi]; exact ha
    cases a with
    | press e =>
      by_cases hs : e.button = LeftButton ∧
          (dragArea env (dispatchAll env s l)).contains e.pos = true
      · exact ⟨l, e, [], rfl, hs.1, hs.2, by simp⟩
      · have hk := mousePressEvent_dragging_of_not_started env _ e hs
        have h2 : (mousePressEvent env (dispatchAll env s l) e)._dragging = true := h
        rw [hk] at h2
        exact extend h2 rfl
    | move e =>
      have h2 : (mouseMoveEvent (dispatchAll env s l) e)._dragging = true := h
      cases hu : (dispatchAll env s l)._dragging with
      | false => simp [mouseMoveEvent, hu] at h2
      | true =>
        by_cases hb : (e.buttons &&& LeftButton) = 0
        · simp [mouseMoveEvent, hu, hb] at h2
        · exact extend hu (by simp [MouseInput.endsDrag, hb])
    | release e =>
      have h2 : (mouseReleaseEvent (dispatchAll env s l) e)._dragging = true := h
      by_cases hb : e.button = LeftButton
      · simp [mouseReleaseEvent, hb] at h2
      · simp only [mouseReleaseEvent, hb, if_false] at h2
        exact extend h2 (by simp [MouseInput.endsDrag, hb])

/-- In left-to-right layout, and in any layout with equal left and right
padding, the drag area is the rectangle with `x = padding.left` and
`width = width() - padding.left - padding.right`. -/
theorem dragArea_eq_unmirroredTitleRect (env : PanelEnv) (s : SeparatePanel)
    (h : env.rtl = false ∨ s._padding.left = s._padding.right) :
    dragArea env s = unmirroredTitleRect env s := by
  unfold dragArea myrtlrect unmirroredTitleRect
  rcases h with h | h
  · simp [h]
  · cases env.rtl with
    | false => simp
    | true =>
      simp only [if_true, QRect.mk.injEq, and_true]
      omega

/-- No mouse handler writes `_padding`. -/
theorem dispatch_padding (env : PanelEnv) (s : SeparatePanel) (i : MouseInput) :
    (dispatch env s i)._padding = s._padding := by
  cases i with
  | press e =>
    simp only [dispatch, mousePressEvent]
    split
    · split
      · rfl
      · split <;> rfl
    · rfl
  | move e =>
    simp only [dispatch, mouseMoveEvent]
    split
    · split <;> rfl
    · rfl
  | release e =>
    simp only [dispatch, mouseReleaseEvent]
    split <;> rfl

/-- No sequence of mouse events changes `_padding`. -/
theorem dispatchAll_padding (env : PanelEnv) (es : List MouseInput) :
    ∀ s : SeparatePanel, (dispatchAll env s es)._padding = s._padding := by
  induction es with
  | nil => intro s; rfl
  | cons i rest ih =>
    intro s
    have hd : dispatchAll env s (i :: rest) = dispatchAll env (dispatch env s i) rest := rfl
    rw [hd, ih, dispatch_padding]

/-- In left-to-right layout, and with equal left and right padding, a drag is
explained by a press inside the rectangle with `x = padding.left`. -/
theorem dragging_explained_unmirrored (env : PanelEnv) (s : SeparatePanel)
    (h0 : s._dragging = false)
    (hpad : env.rtl = false ∨ s._padding.left = s._padding.right)
    (es : List MouseInput) :
    (dispatchAll env s es)._dragging = true →
      DragExplained unmirroredTitleRect env s es := by
  intro h
  obtain ⟨pre, e1, post, heq, hb, hin, hpost⟩ := dragging_explained env s h0 es h
  refine ⟨pre, e1, post, heq, hb, ?_, hpost⟩
  have hp : env.rtl = false ∨
      (dispatchAll env s pre)._padding.left = (dispatchAll env s pre)._padding.right := by
    rw [dispatchAll_padding]
    exact hpad
  rw [← dragArea_eq_unmirroredTitleRect env _ hp]
  exact hin

/-- C2. Starting from `_dragging = false`, after any sequence of
`mousePressEvent`, `mouseMoveEvent` and `mouseReleaseEvent`, `_dragging` is
set only if some earlier left press landed inside the drag area, the
rectangle with `x = padding.left`, `y = padding.top`,
`width = width() - padding.left - padding.right` and
`height = separatePanelTitleHeight`, and since that press there was neither a
left release nor a move without the left button held. This holds for the
padding the source leaves in `_padding` (all margins zero, never assigned) in
either layout direction, and more generally in left-to-right layout and
whenever the left and right paddings are equal; the mouse handlers never
change `_padding`. A move event that arrives while `_dragging` is clear
changes nothing, so it does not move the panel. -/
theorem C2_drag_state_machine (env : PanelEnv) (s t : SeparatePanel)
    (es : List MouseInput) (e : QMouseEvent)
    (h0 : s._dragging = false) (ht : t._dragging = false) :
    ((dispatchAll env { s with _padding := constructedPadding } es)._dragging = true →
      DragExplained unmirroredTitleRect env
        { s with _padding := constructedPadding } es) ∧
    (env.rtl = false ∨ s._padding.left = s._padding.right →
      (dispatchAll env s es)._dragging = true →
      DragExplained unmirroredTitleRect env s es) ∧
    (dispatchAll env s es)._padding = s._padding ∧
    mouseMoveEvent t e = t ∧
    (mouseMoveEvent t e).x = t.x ∧ (mouseMoveEvent t e).y = t.y := by
  refine ⟨?_, ?_, dispatchAll_padding env es s, ?_⟩
  · exact dragging_explained_unmirrored env { s with _padding := constructedPadding }
      h0 (Or.inr rfl) es
  · intro hpad
    exact dragging_explained_unmirrored env s h0 hpad es
  · have : mouseMoveEvent t e = t := by simp [mouseMoveEvent, ht]
    rw [this]
    exact ⟨rfl, rfl, rfl⟩

/-- C2, witness: a panel of width 100 with the constructed padding in
right-to-left layout; the left press at `(95, 5)` lies in the rectangle
`(0, 0, 100, 20)` and starts the drag. -/
theorem C2_drag_state_machine_witness :
    (dispatchAll sampleRtlEnv { samplePanel with _padding := constructedPadding }
      [MouseInput.press (leftAt 95 5)])._dragging = true ∧
    DragExplained unmirroredTitleRect sampleRtlEnv
      { samplePanel with _padding := constructedPadding }
      [MouseInput.press (leftAt 95 5)] ∧
    mouseMoveEvent samplePanel (leftAt 1 1) = samplePanel :=
  ⟨by decide,
    (C2_drag_state_machine sampleRtlEnv samplePanel samplePanel
      [MouseInput.press (leftAt 95 5)] (leftAt 1 1) rfl rfl).1 (by decide),
    (C2_drag_state_machine sampleRtlEnv samplePanel samplePanel
      [MouseInput.press (leftAt 95 5)] (leftAt 1 1) rfl rfl).2.2.2.1⟩

/-- C6. `closeEvent` never lets the window close by itself: it marks the
event as ignored and fires one value on `_userCloseRequests`, so the stream
`closeRequests()` gains exactly one value per close event, and no other field
of the panel changes. -/
theorem C6_closeEvent_ignores_and_fires_once (s : SeparatePanel) (e : QCloseEvent) :
    (closeEvent s e).2.accepted = false ∧
    (closeEvent s e).1.effects = s.effects ++ [PanelEffect.fireUserCloseRequests] ∧
    userCloseRequestsFired (closeEvent s e).1 = userCloseRequestsFired s + 1 ∧
    closeRequests (closeEvent s e).1 = closeRequests s ++ [()] ∧
    (closeRequests (closeEvent s e).1).length = (closeRequests s).length + 1 ∧
    { (closeEvent s e).1 with effects := s.effects } = s := by
  refine ⟨rfl, rfl, ?_, ?_, ?_, rfl⟩
  · simp [closeEvent, userCloseRequestsFired, List.count_append]
  · simp [closeEvent, closeRequests, List.filterMap_append]
  · simp [closeEvent, closeRequests, List.filterMap_append]

/-- C7. `keyPressEvent` fires one value on `_synteticBackRequests`, seen
through `backRequests()`, exactly when the key is Escape and the back button
is toggled on, and fires none otherwise; in both cases the event is then
passed to `RpWidget::keyPressEvent`, and no other field of the panel
changes. -/
theorem C7_keyPressEvent_back_request (s : SeparatePanel) (e : QKeyEvent) :
    (keyPressEvent s e).effects
      = s.effects
        ++ (if e.key = Key_Escape ∧ s.backToggled = true
            then [PanelEffect.fireSynteticBackRequests] else [])
        ++ [PanelEffect.rpWidgetKeyPressEvent e] ∧
    synteticBackRequestsFired (keyPressEvent s e)
      = synteticBackRequestsFired s
        + (if e.key = Key_Escape ∧ s.backToggled = true then 1 else 0) ∧
    backRequests (keyPressEvent s e)
      = backRequests s
        ++ (if e.key = Key_Escape ∧ s.backToggled = true then [()] else []) ∧
    (keyPressEvent s e).effects.getLast? = some (PanelEffect.rpWidgetKeyPressEvent e) ∧
    { keyPressEvent s e with effects := s.effects } = s := by
  have hrest : { keyPressEvent s e with effects := s.effects } = s := by
    unfold keyPressEvent
    split <;> rfl
  have heff : (keyPressEvent s e).effects
      = s.effects
        ++ (if e.key = Key_Escape ∧ s.backToggled = true
            then [PanelEffect.fireSynteticBackRequests] else [])
        ++ [PanelEffect.rpWidgetKeyPressEvent e] := by
    unfold keyPressEvent
    by_cases h : e.key = Key_Escape ∧ s.backToggled = true
    · simp [h.1, h.2]
    · have hc : (decide (e.key = Key_Escape) && s.backToggled) = false := by
        by_cases hk : e.key = Key_Escape
        · cases hb : s.backToggled with
          | false => simp
          | true => exact absurd ⟨hk, hb⟩ h
        · simp [hk]
      simp [h, hc]
  refine ⟨heff, ?_, ?_, ?_, hrest⟩
  · unfold synteticBackRequestsFired
    rw [heff]
    split <;> simp [List.count_append]
  · unfold backRequests
    rw [heff]
    split <;> simp [List.filterMap_append]
  · rw [heff]
    simp

end SeparatePanel

end Ui

namespace Window

namespace MainMenu

/-- C3. When the `_nightThemeSwitch` callback runs and the night-mode action
still exists, `ToggleNightMode` followed by `KeepApplied` is called exactly
when the checked state of the action differs from `IsNightMode()`, and
nothing is called otherwise; with `ToggleNightMode` negating the flag, the
night-mode flag equals the checked state of the action afterwards. When the
action pointer is null the callback changes nothing. -/
theorem C3_night_switch_follows_action (g : MenuGlobals) (m : MainMenu) :
    match nightThemeAction m with
    | none => nightThemeSwitchCallback g m = g
    | some action =>
      (nightThemeSwitchCallback g m).themeCalls
        = g.themeCalls ++ (if action.checked = g.nightMode then []
            else [ThemeCall.ToggleNightMode, ThemeCall.KeepApplied]) ∧
      (nightThemeSwitchCallback g m).nightMode = action.checked ∧
      { nightThemeSwitchCallback g m with
          nightMode := g.nightMode, themeCalls := g.themeCalls } = g := by
  unfold nightThemeSwitchCallback
  cases h : nightThemeAction m with
  | none => rfl
  | some action =>
    by_cases hc : action.checked = g.nightMode
    · simp [hc]
    · have hne : (action.checked != g.nightMode) = true := by simpa using hc
      have hneg : (!g.nightMode) = action.checked := by
        cases hg : g.nightMode <;> cases ha : action.checked <;> simp_all
      simp [hc, hne, KeepApplied, ToggleNightMode, hneg]

/-- C4. `refreshMenu` builds the action list from scratch: whatever the menu
held before, afterwards it holds, in order, New group, New channel, Contacts,
Calls (only with `PhoneCallsEnabled()`), Settings, Night mode outside support
mode, and Add contact, Fix chats order, Reload templates, Settings, Night
mode in support mode. Settings and Night mode are the last two actions, and
a second `refreshMenu` with the same globals changes nothing. -/
theorem C4_refreshMenu_action_list (g : MenuGlobals) (m m2 : MainMenu) :
    actionTexts (refreshMenu g m)
      = (if g.supportMode then
          [ActionText.lng_profile_add_contact, ActionText.fixChatsOrder,
            ActionText.reloadTemplates]
        else
          [ActionText.lng_create_group_title, ActionText.lng_create_channel_title,
            ActionText.lng_menu_contacts]
          ++ (if g.phoneCallsEnabled then [ActionText.lng_menu_calls] else []))
        ++ [ActionText.lng_menu_settings, ActionText.lng_menu_night_mode] ∧
    (actionTexts (refreshMenu g m)).reverse.take 2
      = [ActionText.lng_menu_night_mode, ActionText.lng_menu_settings] ∧
    (refreshMenu g m2).actions = (refreshMenu g m).actions ∧
    refreshMenu g (refreshMenu g m) = refreshMenu g m := by
  cases hs : g.supportMode <;> cases hp : g.phoneCallsEnabled <;>
    cases hf : g.supportFixChatsOrder <;> cases hn : g.nightMode <;>
    simp [refreshMenu, actionTexts, addAction, clearActions, withAction, updatePhone,
      QAction.setCheckable, QAction.setChecked, hs, hp, hf, hn]

end MainMenu

end Window

namespace OldSettings

namespace InnerWidget

/-- C5. When the application is not quitting, `refreshBlocks` returns and
rebuilds the blocks in this order: Info and Notifications (only with a self
user), General, Scale (only when the display is not retina), ChatSettings,
Background and Privacy (only with a self user), Advanced. So there are
`2 + (0 if retina else 1) + (5 if self exists else 0)` blocks, and the cover
exists exactly when a self user exists. -/
theorem C5_refreshBlocks_block_order (env : InnerEnv) (w : InnerWidget)
    (hq : env.quitting = false) :
    ∃ w2, refreshBlocks env w = Except.ok w2 ∧
      blockKinds w2
        = (if w._self.isSome then [BlockKind.InfoWidget, BlockKind.NotificationsWidget]
            else [])
          ++ [BlockKind.GeneralWidget]
          ++ (if env.retina then [] else [BlockKind.ScaleWidget])
          ++ (if w._self.isSome then
              [BlockKind.ChatSettingsWidget, BlockKind.BackgroundWidget,
                BlockKind.PrivacyWidget]
            else [])
          ++ [BlockKind.AdvancedWidget] ∧
      (blockKinds w2).length
        = 2 + (if env.retina then 0 else 1) + (if w._self.isSome then 5 else 0) ∧
      w2._cover.isSome = w._self.isSome ∧
      w2._self = w._self := by
  cases hself : w._self <;> cases hr : env.retina <;>
    simp [refreshBlocks, hq, hr, hself, resizeToWidth, resizeGetHeight, addBlock, newLayout,
      newCover, blocksHeightChanged, blockKinds, bind, Except.bind, pure, Except.pure]

/-- C5, witness: a logged-in user on a display that is not retina gets all
eight blocks. -/
theorem C5_refreshBlocks_block_order_witness :
    ∃ w2, refreshBlocks sampleEnv sampleWidget = Except.ok w2 ∧
      (blockKinds w2).length = 8 := by
  obtain ⟨w2, h, _, hlen, _⟩ := C5_refreshBlocks_block_order sampleEnv sampleWidget rfl
  exact ⟨w2, h, by simpa [sampleEnv, sampleWidget] using hlen⟩

/-- With a layout in `_blocks`, `resizeGetHeight` returns, whether or not
`_cover` is null. -/
theorem resizeGetHeight_ok_of_blocks (env : InnerEnv) (w : InnerWidget) (newWidth : Int)
    (h : w._blocks.isSome = true) :
    ∃ r, resizeGetHeight env w newWidth = Except.ok r ∧ r.1._blocks.isSome = true := by
  obtain ⟨b, hb⟩ := Option.isSome_iff_exists.mp h
  cases hc : w._cover <;> simp [resizeGetHeight, hb, hc]

/-- Without a layout in `_blocks`, `resizeGetHeight` dereferences null. -/
theorem resizeGetHeight_fault_of_null_blocks (env : InnerEnv) (w : InnerWidget)
    (newWidth : Int) (h : w._blocks = none) :
    resizeGetHeight env w newWidth = Except.error Fault.nullBlocks := by
  cases hc : w._cover <;> simp [resizeGetHeight, h, hc]

/-- C8, evaluated where it fails. The constructor leaves a layout in
`_blocks`; a `fullRebuild` while the application is quitting destroys it; the
next `resizeGetHeight` calls `_blocks->resizeToWidth` through the null
pointer. The cover is null in that state too, and neither guarded use of
`_cover` faults. -/
theorem C8_resizeGetHeight_null_blocks_after_quitting :
    (∃ w, construct sampleEnv 400 300 = Except.ok w ∧ w._blocks.isSome = true) ∧
    (∃ w, constructThenCalls sampleEnv 400 300
        [(sampleQuittingEnv, Call.fullRebuild)] = Except.ok w ∧
      w._blocks = none ∧ w._cover = none) ∧
    constructThenCalls sampleEnv 400 300
      [(sampleQuittingEnv, Call.fullRebuild), (sampleEnv, Call.resizeGetHeight 400)]
      = Except.error Fault.nullBlocks := by
  refine ⟨⟨_, rfl, rfl⟩, ⟨_, rfl, rfl, rfl⟩, rfl⟩

end InnerWidget

end OldSettings

namespace OldSettings

namespace AdvancedWidget

theorem construct_rowsCreated (off : Bool) (env : AdvancedEnv) (self : Option UserData) :
    ∃ w, construct off env self = Except.ok w ∧ RowsCreated off self w ∧
      w._useDefaultTheme.isSome = self.isNone ∧
      w._toggleNightTheme.isSome = self.isNone := by
  cases self <;> cases off <;> cases hs : env.suggestThemeReset <;>
    simp [construct, createControls, connectionTypeUpdated, RowsCreated, hs,
      bind, Except.bind, pure, Except.pure]

theorem checkNonDefaultTheme_ok (off : Bool) (self : Option UserData) (env : AdvancedEnv)
    (w : AdvancedWidget) (h : RowsCreated off self w) :
    ∃ w2, checkNonDefaultTheme env w = Except.ok w2 ∧ RowsCreated off self w2 ∧
      if self.isSome = true then w2 = w
      else
        w2._useDefaultTheme.map (fun row => row.toggled) = some env.suggestThemeReset ∧
        w2._toggleNightTheme.map (fun row => row.text)
          = some (getNightThemeToggleText env) := by
  obtain ⟨hself, hrows, hconn⟩ := h
  cases self with
  | some u =>
    refine ⟨w, ?_, ⟨hself, hrows, hconn⟩, by simp⟩
    simp [checkNonDefaultTheme, hself]
  | none =>
    obtain ⟨h1, h2⟩ := hrows rfl
    obtain ⟨row, hrow⟩ := Option.isSome_iff_exists.mp h1
    obtain ⟨night, hnight⟩ := Option.isSome_iff_exists.mp h2
    refine ⟨{ w with
        _useDefaultTheme := some { row with toggled := env.suggestThemeReset }
        _toggleNightTheme := some { night with text := getNightThemeToggleText env } },
      ?_, ?_, ?_⟩
    · simp [checkNonDefaultTheme, hself, hrow, hnight]
    · exact ⟨hself, fun _ => ⟨rfl, rfl⟩, hconn⟩
    · simp

theorem call_rowsCreated (off : Bool) (self : Option UserData)
    (s : AdvancedWidget × World) (c : AdvancedEnv × Call) (h : RowsCreated off self s.1) :
    ∃ s2, call off s c = Except.ok s2 ∧ RowsCreated off self s2.1 := by
  obtain ⟨env, op⟩ := c
  cases op with
  | checkNonDefaultTheme =>
    obtain ⟨w2, hw, hinv, _⟩ := checkNonDefaultTheme_ok off self env s.1 h
    exact ⟨(w2, s.2), by simp [call, hw], hinv⟩
  | connectionTypeUpdated =>
    cases off with
    | true => exact ⟨s, by simp [call], h⟩
    | false =>
      obtain ⟨hself, hrows, hconn⟩ := h
      obtain ⟨row, hrow⟩ := Option.isSome_iff_exists.mp (hconn rfl)
      cases hc : connectionTypeUpdated env s.1 with
      | error f => simp [connectionTypeUpdated, hrow] at hc
      | ok w2 =>
        refine ⟨(w2, s.2), by simp [call, hc], ?_⟩
        simp only [connectionTypeUpdated, hrow, Except.ok.injEq] at hc
        subst hc
        exact ⟨hself, hrows, fun _ => rfl⟩
  | onAskQuestionSure =>
    refine ⟨onAskQuestionSure s.1 s.2, rfl, ?_⟩
    unfold onAskQuestionSure
    split
    · exact h
    · exact h
  | supportGot support =>
    refine ⟨supportGot env s.1 s.2 support, rfl, ?_⟩
    unfold supportGot
    split
    · exact h
    · split
      · split <;> exact h
      · exact h

theorem calls_rowsCreated (off : Bool) (self : Option UserData)
    (cs : List (AdvancedEnv × Call)) :
    ∀ s : AdvancedWidget × World, RowsCreated off self s.1 →
      ∃ s2, calls off s cs = Except.ok s2 ∧ RowsCreated off self s2.1 := by
  induction cs with
  | nil => intro s h; exact ⟨s, rfl, h⟩
  | cons c rest ih =>
    intro s h
    obtain ⟨s1, h1, hinv⟩ := call_rowsCreated off self s c h
    obtain ⟨s2, h2, hinv2⟩ := ih s1 hinv
    exact ⟨s2, by simp [calls, h1, h2], hinv2⟩

/-- C9. `AdvancedWidget` never dereferences a row it did not create. The
constructor returns, and `createControls` has created `_useDefaultTheme` and
`_toggleNightTheme` exactly when `self()` is null. After the constructor and
any sequence of later calls, a call of `checkNonDefaultTheme` returns without
a null dereference: with a self user it changes nothing, and without one it
sets the visibility of `_useDefaultTheme` to `SuggestThemeReset()` and the
text of `_toggleNightTheme` to `getNightThemeToggleText()`. -/
theorem C9_checkNonDefaultTheme_rows_exist (networkProxyDisabled : Bool)
    (env0 env : AdvancedEnv) (self : Option UserData) (world : World)
    (cs : List (AdvancedEnv × Call)) :
    ∃ w0, construct networkProxyDisabled env0 self = Except.ok w0 ∧
      w0._useDefaultTheme.isSome = self.isNone ∧
      w0._toggleNightTheme.isSome = self.isNone ∧
      ∃ s, calls networkProxyDisabled (w0, world) cs = Except.ok s ∧
        s.1.self = self ∧
        ∃ w2, checkNonDefaultTheme env s.1 = Except.ok w2 ∧
          if self.isSome = true then w2 = s.1
          else
            w2._useDefaultTheme.map (fun row => row.toggled)
              = some env.suggestThemeReset ∧
            w2._toggleNightTheme.map (fun row => row.text)
              = some (getNightThemeToggleText env) := by
  obtain ⟨w0, h0, hinv0, hu, ht⟩ := construct_rowsCreated networkProxyDisabled env0 self
  obtain ⟨s, hs, hinv⟩ := calls_rowsCreated networkProxyDisabled self cs (w0, world) hinv0
  obtain ⟨w2, hw, _, hres⟩ := checkNonDefaultTheme_ok networkProxyDisabled self env s.1 hinv
  exact ⟨w0, h0, hu, ht, s, hs, hinv.1, w2, hw, hres⟩

/-- Calls of the support bookkeeping return, keep the table of request ids,
send nothing once `_supportGetRequest` is not zero, and send at most one
request before. -/
theorem support_calls_send_at_most_once (off : Bool) (cs : List (AdvancedEnv × Call)) :
    ∀ s : AdvancedWidget × World,
      (∀ k, s.2.requestIds k ≠ 0) →
      (∀ c ∈ cs, Call.isSupportCall c.2 = true) →
      ∃ s2, calls off s cs = Except.ok s2 ∧
        (s.1._supportGetRequest ≠ 0 →
          s2.2.sent = s.2.sent ∧ s2.1._supportGetRequest = s.1._supportGetRequest) ∧
        s2.2.sent.length ≤ s.2.sent.length + 1 ∧
        (s2.2.sent.length = s.2.sent.length ∨ s2.1._supportGetRequest ≠ 0) := by
  induction cs with
  | nil =>
    intro s _ _
    exact ⟨s, rfl, fun _ => ⟨rfl, rfl⟩, Nat.le_succ _, Or.inl rfl⟩
  | cons c rest ih =>
    intro s hids hcs
    have hc : Call.isSupportCall c.2 = true := hcs c (List.mem_cons_self _ _)
    have hrest : ∀ d ∈ rest, Call.isSupportCall d.2 = true :=
      fun d hd => hcs d (List.mem_cons_of_mem _ hd)
    obtain ⟨env, op⟩ := c
    cases op with
    | checkNonDefaultTheme => simp [Call.isSupportCall] at hc
    | connectionTypeUpdated => simp [Call.isSupportCall] at hc
    | supportGot support =>
      have hw : (supportGot env s.1 s.2 support).1 = s.1 := by
        unfold supportGot; split
        · rfl
        · split
          · split <;> rfl
          · rfl
      have hsent : (supportGot env s.1 s.2 support).2.sent = s.2.sent := by
        unfold supportGot; split
        · rfl
        · split
          · split <;> rfl
          · rfl
      have hid : (supportGot env s.1 s.2 support).2.requestIds = s.2.requestIds := by
        unfold supportGot; split
        · rfl
        · split
          · split <;> rfl
          · rfl
      obtain ⟨s2, h2, hkeep, hle, hor⟩ :=
        ih (supportGot env s.1 s.2 support) (by rw [hid]; exact hids) hrest
      try rw [hw] at hkeep
      try rw [hw] at hor
      rw [hsent] at hkeep hle hor
      exact ⟨s2, by simp [calls, call, h2], hkeep, hle, hor⟩
    | onAskQuestionSure =>
      by_cases hz : s.1._supportGetRequest = 0
      · have hstep : onAskQuestionSure s.1 s.2
            = ({ s.1 with _supportGetRequest := s.2.requestIds s.2.sent.length },
                { s.2 with sent := s.2.sent ++ [MtpRequest.MTPhelp_GetSupport] }) := by
          simp [onAskQuestionSure, hz, World.send]
        obtain ⟨s2, h2, hkeep, _, _⟩ := ih (onAskQuestionSure s.1 s.2)
          (by rw [hstep]; exact hids) hrest
        rw [hstep] at hkeep
        obtain ⟨hk1, hk2⟩ := hkeep (hids _)
        refine ⟨s2, by simp [calls, call, h2], fun hne => absurd hz hne, ?_, Or.inr ?_⟩
        · rw [hk1]; simp
        · rw [hk2]; exact hids _
      · have hstep : onAskQuestionSure s.1 s.2 = (s.1, s.2) := by
          simp [onAskQuestionSure, hz]
        obtain ⟨s2, h2, hkeep, hle, hor⟩ := ih (onAskQuestionSure s.1 s.2)
          (by rw [hstep]; exact hids) hrest
        simp only [hstep] at hkeep hle hor
        exact ⟨s2, by simp [calls, call, h2], hkeep, hle, hor⟩

/-- C10. `onAskQuestionSure` sends a `help.getSupport` request only when
`_supportGetRequest` is zero and stores the returned request id in it;
`supportGot` leaves the field as it is. So when `MTP::send` never returns
zero, any sequence of `onAskQuestionSure` and `supportGot` calls on one
widget returns and sends at most one request, and none when the field was
not zero at the start. -/
theorem C10_support_request_sent_at_most_once (networkProxyDisabled : Bool)
    (w : AdvancedWidget) (world : World) (cs : List (AdvancedEnv × Call))
    (env : AdvancedEnv) (support : MTPhelp_Support)
    (hids : ∀ k, world.requestIds k ≠ 0)
    (hcs : ∀ c ∈ cs, Call.isSupportCall c.2 = true) :
    onAskQuestionSure w world
      = (if w._supportGetRequest = 0 then
          ({ w with _supportGetRequest := world.requestIds world.sent.length },
            { world with sent := world.sent ++ [MtpRequest.MTPhelp_GetSupport] })
        else (w, world)) ∧
    (supportGot env w world support).1 = w ∧
    (supportGot env w world support).2.sent = world.sent ∧
    ∃ s2, calls networkProxyDisabled (w, world) cs = Except.ok s2 ∧
      s2.2.sent.length ≤ world.sent.length + 1 ∧
      (if w._supportGetRequest = 0 then True else s2.2.sent = world.sent) := by
  refine ⟨?_, ?_, ?_, ?_⟩
  · by_cases hz : w._supportGetRequest = 0 <;> simp [onAskQuestionSure, hz, World.send]
  · unfold supportGot; split
    · rfl
    · split
      · split <;> rfl
      · rfl
  · unfold supportGot; split
    · rfl
    · split
      · split <;> rfl
      · rfl
  · obtain ⟨s2, h2, hkeep, hle, _⟩ :=
      support_calls_send_at_most_once networkProxyDisabled cs (w, world) hids hcs
    refine ⟨s2, h2, hle, ?_⟩
    by_cases hz : w._supportGetRequest = 0
    · simp [hz]
    · simp only [hz, if_false]
      exact (hkeep hz).1

/-- C10, witness: three confirmations with an answer in between send one
request. -/
theorem C10_support_request_sent_at_most_once_witness :
    ∃ s2, calls false (sampleWidget, sampleWorld)
        [(sampleEnv, Call.onAskQuestionSure),
          (sampleEnv, Call.supportGot ⟨true, some ⟨7⟩⟩),
          (sampleEnv, Call.onAskQuestionSure),
          (sampleEnv, Call.onAskQuestionSure)] = Except.ok s2 ∧
      s2.2.sent.length ≤ 0 + 1 := by
  obtain ⟨_, _, _, s2, h, hle, _⟩ :=
    C10_support_request_sent_at_most_once false sampleWidget sampleWorld
      [(sampleEnv, Call.onAskQuestionSure),
        (sampleEnv, Call.supportGot ⟨true, some ⟨7⟩⟩),
        (sampleEnv, Call.onAskQuestionSure),
        (sampleEnv, Call.onAskQuestionSure)]
      sampleEnv ⟨true, some ⟨7⟩⟩
      (by intro k; simp only [sampleWorld]; omega)
      (by decide)
  exact ⟨s2, h, hle⟩

end AdvancedWidget

end OldSettings

namespace OldSettings

namespace InnerWidget

/-- C11. `getUpdateTop` returns without a fault. It returns -1 when no
`_getUpdateTop` callback is installed, when the General block the callback
weakly refers to has been destroyed, and when `getUpdateTop()` of the General
block is negative. In every other case it returns
`_blocks->y() + general->y() + top`, where `top >= 0` is `getUpdateTop()` of
the General block. -/
theorem C11_getUpdateTop_cases (env : InnerEnv) (w : InnerWidget) :
    (w._getUpdateTop = none → getUpdateTop env w = Except.ok (-1)) ∧
    (∀ general, w._getUpdateTop = some general → generalBlock w general = none →
      getUpdateTop env w = Except.ok (-1)) ∧
    (∀ general, w._getUpdateTop = some general → env.generalUpdateTop < 0 →
      getUpdateTop env w = Except.ok (-1)) ∧
    (∀ general blocks block, w._getUpdateTop = some general →
      w._blocks = some blocks → blocks.rows[general]? = some block →
      0 ≤ env.generalUpdateTop →
      getUpdateTop env w
        = Except.ok (blocks.y + env.blockY general + env.generalUpdateTop)) ∧
    (∃ v, getUpdateTop env w = Except.ok v) := by
  refine ⟨?_, ?_, ?_, ?_, ?_⟩
  · intro h
    simp [getUpdateTop, h]
  · intro general h hg
    simp [getUpdateTop, getUpdateTopLambda, h, hg]
  · intro general h htop
    have hn : ¬ env.generalUpdateTop ≥ 0 := by omega
    cases hg : generalBlock w general <;>
      simp [getUpdateTop, getUpdateTopLambda, h, hg, hn]
  · intro general blocks block h hb hrow htop
    have hg : generalBlock w general = some block := by
      simp [generalBlock, hb, hrow]
    simp [getUpdateTop, getUpdateTopLambda, h, hg, hb, htop]
  · cases h : w._getUpdateTop with
    | none => exact ⟨-1, by simp [getUpdateTop, h]⟩
    | some general =>
      cases hb : w._blocks with
      | none => exact ⟨-1, by simp [getUpdateTop, getUpdateTopLambda, generalBlock, h, hb]⟩
      | some blocks =>
        cases hrow : blocks.rows[general]? with
        | none =>
          exact ⟨-1, by simp [getUpdateTop, getUpdateTopLambda, generalBlock, h, hb, hrow]⟩
        | some block =>
          by_cases htop : env.generalUpdateTop ≥ 0
          · exact ⟨blocks.y + env.blockY general + env.generalUpdateTop, by
              simp [getUpdateTop, getUpdateTopLambda, generalBlock, h, hb, hrow, htop]⟩
          · exact ⟨-1, by
              simp [getUpdateTop, getUpdateTopLambda, generalBlock, h, hb, hrow, htop]⟩

/-- After the constructor for a logged-in user the General block is the
third block, at 100, under a cover of height 120 and a top skip of 8, so with
`top = 30` the result of `getUpdateTop` is `128 + 100 + 30`. After a
`fullRebuild` while quitting the General block is gone and the result
is -1, without a dereference of the null `_blocks`. -/
theorem getUpdateTop_after_construct_and_after_quitting :
    constructCallsGetUpdateTop sampleEnv 400 300 [] sampleEnv = Except.ok 258 ∧
    constructCallsGetUpdateTop sampleEnv 400 300
      [(sampleQuittingEnv, Call.fullRebuild)] sampleEnv = Except.ok (-1) :=
  ⟨rfl, rfl⟩

end InnerWidget

end OldSettings

namespace ShareBox

/-- C12. `peopleFailed`, the failure callback of the username search request,
leaves the cached search state unchanged: for every error and request id the
map `_peopleCache` after the call is the map before the call, so every query
has the same cached result. -/
theorem C12_peopleFailed_keeps_cache (s : ShareBox) (error : RPCError) (requestId : Int)
    (query : String) :
    (peopleFailed s error requestId).1._peopleCache = s._peopleCache ∧
    cached (peopleFailed s error requestId).1 query = cached s query ∧
    (peopleFailed s error requestId).1._peopleQueries = s._peopleQueries :=
  ⟨rfl, rfl, rfl⟩

end ShareBox

namespace Ui

open Qt

namespace SeparatePanel

/-- C13. For a requested inner size `(w, h)` that is not empty, on a panel
whose rect is not empty, `setInnerSize` returns and takes the path through
`updateGeometry`. The panel keeps its `x` and `y`, its outer size becomes
`(padding.left + w + padding.right, padding.top + h + padding.bottom)`, and
`updateControlsGeometry` places the body at
`(padding.left, padding.top + separatePanelTitleHeight)` with size
`(w, h - separatePanelTitleHeight)`. A later `resizeEvent` changes nothing. -/
theorem C13_updateGeometry_places_body (env : PanelEnv) (s : SeparatePanel) (size : QSize)
    (hsize : size.isEmpty = false) (hrect : (rect s).isEmpty = false) :
    setInnerSize env s size = Except.ok (updateGeometry env s size) ∧
    (updateGeometry env s size).x = s.x ∧
    (updateGeometry env s size).y = s.y ∧
    (updateGeometry env s size).width
      = s._padding.left + size.width + s._padding.right ∧
    (updateGeometry env s size).height
      = s._padding.top + size.height + s._padding.bottom ∧
    (updateGeometry env s size).body
      = ⟨s._padding.left, s._padding.top + env.separatePanelTitleHeight,
          size.width, size.height - env.separatePanelTitleHeight⟩ ∧
    (updateGeometry env s size)._padding = s._padding ∧
    resizeEvent env (updateGeometry env s size) = updateGeometry env s size := by
  refine ⟨?_, rfl, rfl, rfl, rfl, ?_, rfl, rfl⟩
  · simp [setInnerSize, hsize, hrect]
  · simp only [updateGeometry, update, updateControlsGeometry, setGeometry,
      QRect.mk.injEq, true_and]
    constructor <;> omega

/-- C13, witness: the sample panel (paddings 0, 0, 10, 0, title height 20)
asked for an inner size of 200 by 100. -/
theorem C13_updateGeometry_places_body_witness :
    (updateGeometry sampleEnv samplePanel ⟨200, 100⟩).width = 0 + 200 + 10 ∧
    (updateGeometry sampleEnv samplePanel ⟨200, 100⟩).body = ⟨0, 0 + 20, 200, 100 - 20⟩ :=
  ⟨(C13_updateGeometry_places_body sampleEnv samplePanel ⟨200, 100⟩
      (by decide) (by decide)).2.2.2.1,
    (C13_updateGeometry_places_body sampleEnv samplePanel ⟨200, 100⟩
      (by decide) (by decide)).2.2.2.2.2.1⟩

/-- Every call that concerns the title returns. -/
theorem titleCall_ok (st : TitleStyle) (s : SeparatePanel) (c : TitleCall) :
    ∃ s2, titleCall st s c = Except.ok s2 := by
  cases c with
  | setTitle title =>
    exact ⟨_, by
      simp [titleCall, setTitle, throughTitle, updateTitleGeometry, bind, Except.bind]
      rfl⟩
  | widthChanged width =>
    cases h : s._title with
    | none => exact ⟨_, by simp [titleCall, widthValueChanged, h]; rfl⟩
    | some t =>
      exact ⟨_, by simp [titleCall, widthValueChanged, updateTitleGeometry, h]; rfl⟩
  | setBackAllowed allowed => exact ⟨_, rfl⟩
  | titleLeftStep value => exact ⟨_, rfl⟩

/-- Every sequence of calls that concern the title returns. -/
theorem titleCalls_ok (st : TitleStyle) (cs : List TitleCall) :
    ∀ s : SeparatePanel, ∃ s2, titleCalls st s cs = Except.ok s2 := by
  induction cs with
  | nil => intro s; exact ⟨s, rfl⟩
  | cons c rest ih =>
    intro s
    obtain ⟨s1, h1⟩ := titleCall_ok st s c
    obtain ⟨s2, h2⟩ := ih s1
    exact ⟨s2, by simp [titleCalls, h1, h2]⟩

/-- C14. `updateTitleGeometry` dereferences `_title` without a guard, so it
faults on a null `_title`; `updateTitlePosition` returns without any effect
on a null `_title`. `initControls` returns on a panel without a title, and
after it every sequence of `setTitle`, width changes, toggles of the back
button and steps of the toggle animation returns: no null `_title` is
dereferenced. The same holds from any other state of the panel. -/
theorem C14_title_never_null_dereferenced (st : TitleStyle) (s : SeparatePanel)
    (cs : List TitleCall) (newWidth : Int) :
    updateTitleGeometry st { s with _title := none } newWidth
      = Except.error PanelFault.nullTitle ∧
    updateTitlePosition st { s with _title := none } = { s with _title := none } ∧
    (∃ s0, initControls st { s with _title := none } = Except.ok s0 ∧
      ∃ s2, titleCalls st s0 cs = Except.ok s2) ∧
    (∃ s2, titleCalls st s cs = Except.ok s2) := by
  refine ⟨rfl, rfl, ?_, titleCalls_ok st cs s⟩
  have h0 : ∃ s0, initControls st { s with _title := none } = Except.ok s0 :=
    ⟨_, by simp [initControls, widthValueChanged, bind, Except.bind, pure, Except.pure]; rfl⟩
  obtain ⟨s0, hs0⟩ := h0
  exact ⟨s0, hs0, titleCalls_ok st cs s0⟩

end SeparatePanel

end Ui

namespace Ui

open Qt

namespace SeparatePanel

/-- A call on a show or hide path changes neither `_visible` nor
`isHidden()`. -/
theorem activationCall_keeps_visible (env : PanelEnv) (s : SeparatePanel)
    (c : ActivationCall) :
    (activationCall env s c)._visible = s._visible ∧
    (activationCall env s c).isHidden = s.isHidden := by
  cases c with
  | showAndActivate =>
    simp [activationCall, showAndActivate, toggleOpacityAnimation]
  | setHideOnDeactivate h a =>
    cases h <;> cases a <;>
      simp [activationCall, setHideOnDeactivate, showAndActivate, toggleOpacityAnimation,
        hideGetDuration]
  | eventHook e r =>
    by_cases hc : (decide (e.type = WindowDeactivate) && s._hideOnDeactivate) = true
    · simp [activationCall, eventHook, hc, hideGetDuration]
    · simp [activationCall, eventHook, hc]
  | mousePressEvent e =>
    simp only [activationCall, mousePressEvent]
    split
    · split
      · exact ⟨rfl, rfl⟩
      · split
        · exact ⟨rfl, rfl⟩
        · exact ⟨rfl, rfl⟩
    · exact ⟨rfl, rfl⟩

/-- A sequence of calls on show or hide paths changes neither `_visible` nor
`isHidden()`. -/
theorem activationCalls_keep_visible (env : PanelEnv) (cs : List ActivationCall) :
    ∀ s : SeparatePanel,
      (activationCalls env s cs)._visible = s._visible ∧
      (activationCalls env s cs).isHidden = s.isHidden := by
  induction cs with
  | nil => intro s; exact ⟨rfl, rfl⟩
  | cons c rest ih =>
    intro s
    have h1 := activationCall_keeps_visible env s c
    have h2 := ih (activationCall env s c)
    have hd : activationCalls env s (c :: rest)
        = activationCalls env (activationCall env s c) rest := rfl
    rw [hd]
    exact ⟨h2.1.trans h1.1, h2.2.trans h1.2⟩

/-- C16, as stated, fails in its last part: `setHideOnDeactivate(false)` does
more than store its argument. It runs `showAndActivate`, which raises the
window, sets its state to active, activates it and gives it the focus. -/
theorem C16_setHideOnDeactivate_counterexample :
    (setHideOnDeactivate samplePanel false true).effects
      = [PanelEffect.raise, PanelEffect.setWindowStateActive,
          PanelEffect.activateWindow, PanelEffect.setFocus] ∧
    setHideOnDeactivate samplePanel false true
      ≠ { samplePanel with _hideOnDeactivate := false } := by
  refine ⟨rfl, ?_⟩
  intro h
  have he := congrArg SeparatePanel.effects h
  simp [setHideOnDeactivate, showAndActivate, toggleOpacityAnimation, samplePanel] at he

/-- C16, amended. The flag `_visible` is constant: `toggleOpacityAnimation(v)`
changes no state for either `v`, and `hideGetDuration` changes no state and
returns 0. So after any sequence of `showAndActivate`, `setHideOnDeactivate`,
`eventHook` and `mousePressEvent` calls `_visible` has its first value and
the panel is hidden exactly if it was before: none of the three hide paths
hides the panel. `setHideOnDeactivate` stores its argument in
`_hideOnDeactivate` and changes no other member field; besides that it runs
`showAndActivate` (raise, window state active, `activateWindow`, `setFocus`)
for a false argument, and writes a log line for a true argument on a window
that is not active. -/
theorem C16_visible_is_constant (env : PanelEnv) (s : SeparatePanel)
    (cs : List ActivationCall) (v hideOnDeactivate isActiveWindow : Bool) :
    toggleOpacityAnimation s v = s ∧
    hideGetDuration s = (s, 0) ∧
    (activationCalls env s cs)._visible = s._visible ∧
    (activationCalls env s cs).isHidden = s.isHidden ∧
    (setHideOnDeactivate s hideOnDeactivate isActiveWindow)._hideOnDeactivate
      = hideOnDeactivate ∧
    { setHideOnDeactivate s hideOnDeactivate isActiveWindow with effects := s.effects }
      = { s with _hideOnDeactivate := hideOnDeactivate } ∧
    (setHideOnDeactivate s hideOnDeactivate isActiveWindow).effects
      = s.effects ++
        (if hideOnDeactivate = false then
          [PanelEffect.raise, PanelEffect.setWindowStateActive,
            PanelEffect.activateWindow, PanelEffect.setFocus]
        else if isActiveWindow = false then
          [PanelEffect.log "Export Info: Panel Hide On Inactive Change."]
        else []) := by
  have hv := activationCalls_keep_visible env cs s
  refine ⟨by simp [toggleOpacityAnimation], rfl, hv.1, hv.2, ?_, ?_, ?_⟩ <;>
    cases hideOnDeactivate <;> cases isActiveWindow <;>
    simp [setHideOnDeactivate, showAndActivate, toggleOpacityAnimation, hideGetDuration]

end SeparatePanel

end Ui

namespace Ui

open Qt

namespace SeparatePanel

/-- For a rectangle with width and height at least zero, `contains` is the
test against the half-open ranges `[x, x + width)` and `[y, y + height)`. -/
theorem contains_iff_of_nonneg (r : QRect) (p : QPoint)
    (hw : 0 ≤ r.width) (hh : 0 ≤ r.height) :
    r.contains p = true ↔
      (r.x ≤ p.x ∧ p.x < r.x + r.width) ∧ (r.y ≤ p.y ∧ p.y < r.y + r.height) := by
  have hx : ¬ r.x2 < r.x - 1 := by unfold QRect.x2; omega
  have hy : ¬ r.y2 < r.y - 1 := by unfold QRect.y2; omega
  unfold QRect.contains
  simp only [hx, hy, if_false]
  unfold QRect.x2 QRect.y2
  by_cases h1 : p.x < r.x <;> by_cases h2 : p.x > r.x + r.width - 1 <;>
    by_cases h3 : p.y < r.y <;> by_cases h4 : p.y > r.y + r.height - 1 <;>
    simp only [h1, h2, h3, h4, decide_True, decide_False, Bool.or_true, Bool.or_false,
      Bool.true_or, Bool.or_self, if_true, if_false, Bool.false_eq_true, false_iff,
      true_iff] <;>
    omega

/-- The test `contains` as a decision of the half-open range test. -/
theorem contains_eq_decide (r : QRect) (p : QPoint)
    (hw : 0 ≤ r.width) (hh : 0 ≤ r.height) :
    r.contains p
      = decide ((r.x ≤ p.x ∧ p.x < r.x + r.width) ∧ (r.y ≤ p.y ∧ p.y < r.y + r.height)) := by
  rw [Bool.eq_iff_iff, decide_eq_true_eq]
  exact contains_iff_of_nonneg r p hw hh

/-- C15. `paintOpaqueBorder` tiles the panel exactly. For a panel of size
`(W, H)` and paddings that are at least zero with
`padding.left + padding.right <= W` and `padding.top + padding.bottom <= H`,
in left-to-right layout or with `padding.left = padding.right`, every point
of the rectangle `(0, 0, W, H)` is painted by exactly one of the five
`fillRect` calls and no point outside it is painted by any: the five
rectangles are pairwise disjoint and their union is `(0, 0, W, H)`. The last
call fills the interior
`(padding.left, padding.top, W - padding.left - padding.right,
H - padding.top - padding.bottom)` with `st::windowBg`; the four before it
fill the border strips. -/
theorem C15_paintOpaqueBorder_tiles_panel (env : PanelEnv) (s : SeparatePanel) (p : QPoint)
    (hl : 0 ≤ s._padding.left) (ht : 0 ≤ s._padding.top)
    (hr : 0 ≤ s._padding.right) (hb : 0 ≤ s._padding.bottom)
    (hw : s._padding.left + s._padding.right ≤ s.width)
    (hh : s._padding.top + s._padding.bottom ≤ s.height)
    (hdir : env.rtl = false ∨ s._padding.left = s._padding.right) :
    paintedTimes env s p = (if (rect s).contains p = true then 1 else 0) ∧
    (paintOpaqueBorder env s).length = 5 ∧
    (paintOpaqueBorder env s)[4]?
      = some (⟨s._padding.left, s._padding.top,
          s.width - s._padding.left - s._padding.right,
          s.height - s._padding.top - s._padding.bottom⟩, Brush.windowBg) ∧
    ((paintOpaqueBorder env s).take 4).map (fun fill => fill.2)
      = [Brush.windowShadowFgFallback, Brush.windowShadowFgFallback,
          Brush.windowShadowFgFallback, Brush.windowShadowFgFallback] := by
  refine ⟨?_, rfl, rfl, rfl⟩
  have hrect := contains_eq_decide (rect s) p (by simp only [rect]; omega)
    (by simp only [rect]; omega)
  have e1 := contains_eq_decide ⟨0, 0, s.width, s._padding.top⟩ p
    (by simp only; omega) (by simp only; omega)
  have e2 := contains_eq_decide
    (myrtlrect env s 0 s._padding.top s._padding.left (s.height - s._padding.top)) p
    (by unfold myrtlrect; split <;> simp only <;> omega)
    (by unfold myrtlrect; split <;> simp only <;> omega)
  have e3 := contains_eq_decide
    (myrtlrect env s (s.width - s._padding.right) s._padding.top s._padding.right
      (s.height - s._padding.top)) p
    (by unfold myrtlrect; split <;> simp only <;> omega)
    (by unfold myrtlrect; split <;> simp only <;> omega)
  have e4 := contains_eq_decide
    ⟨s._padding.left, s.height - s._padding.bottom,
      s.width - s._padding.left - s._padding.right, s._padding.bottom⟩ p
    (by simp only; omega) (by simp only; omega)
  have e5 := contains_eq_decide
    ⟨s._padding.left, s._padding.top,
      s.width - s._padding.left - s._padding.right,
      s.height - s._padding.top - s._padding.bottom⟩ p
    (by simp only; omega) (by simp only; omega)
  unfold paintedTimes paintOpaqueBorder
  simp only [List.countP_cons, List.countP_nil]
  rw [hrect, e1, e2, e3, e4, e5]
  simp only [decide_eq_true_eq, rect]
  cases hrtl : env.rtl with
  | false =>
    simp only [myrtlrect, hrtl, Bool.false_eq_true, if_false]
    split_ifs <;> omega
  | true =>
    have hd : s._padding.left = s._padding.right := by
      rcases hdir with h | h
      · rw [hrtl] at h; exact absurd h (by decide)
      · exact h
    simp only [myrtlrect, hrtl, if_true]
    split_ifs <;> omega

/-- C15, witness: in the sample panel (width 100, height 50, right padding
10) the point `(95, 5)` of the right strip is painted once. -/
theorem C15_paintOpaqueBorder_tiles_panel_witness :
    paintedTimes sampleEnv samplePanel ⟨95, 5⟩ = 1 :=
  (C15_paintOpaqueBorder_tiles_panel sampleEnv samplePanel ⟨95, 5⟩
    (by decide) (by decide) (by decide) (by decide) (by decide) (by decide)
    (Or.inl rfl)).1.trans (by decide)

end SeparatePanel

end Ui

namespace Window

namespace MainMenu

/-- After `refreshMenu` the night-mode action exists, is checkable, and is
checked exactly in night mode. -/
theorem refreshMenu_nightActionChecked (g : MenuGlobals) (m : MainMenu) :
    NightActionChecked g.nightMode (refreshMenu g m) := by
  unfold NightActionChecked
  cases hs : g.supportMode <;> cases hp : g.phoneCallsEnabled <;>
    cases hf : g.supportFixChatsOrder <;> cases hn : g.nightMode <;>
    simp [refreshMenu, nightThemeAction, addAction, clearActions, withAction, updatePhone,
      QAction.setCheckable, QAction.setChecked, hs, hp, hf, hn]

/-- An activation of the night-mode action negates its checked state and arms
the switch. -/
theorem nightModeActionTriggered_negates (c : Bool) (m : MainMenu)
    (h : NightActionChecked c m) :
    NightActionChecked (!c) (nightModeActionTriggered m) ∧
    (nightModeActionTriggered m).nightThemeSwitchArmed = true := by
  obtain ⟨action, ha, hcheckable, hchecked⟩ := h
  cases hp : m._nightThemeAction with
  | none => simp [nightThemeAction, hp] at ha
  | some ptr =>
    have hget : m.actions[ptr]? = some action := by
      simpa [nightThemeAction, hp] using ha
    have hlt : ptr < m.actions.length := by
      obtain ⟨hlt, _⟩ := List.getElem?_eq_some.mp hget
      exact hlt
    have hset : action.setChecked (!action.checked)
        = { action with checked := !action.checked } := by
      cases hc : action.checked <;> simp [QAction.setChecked, hcheckable, hc]
    have hstep : nightModeActionTriggered m
        = { m with
            actions := m.actions.set ptr { action with checked := !action.checked }
            nightThemeSwitchArmed := true } := by
      simp [nightModeActionTriggered, hp, ha, withAction, hget, hset]
    rw [hstep]
    refine ⟨⟨{ action with checked := !action.checked }, ?_, hcheckable, ?_⟩, rfl⟩
    · simp [nightThemeAction, hp, List.getElem?_set_self hlt]
    · simp [hchecked]

/-- After `n` activations the checked state is negated exactly for odd `n`. -/
theorem clickNightMode_checked (c : Bool) (m : MainMenu) (h : NightActionChecked c m) :
    ∀ n : Nat, NightActionChecked (xor c (decide (n % 2 = 1))) (clickNightMode n m) := by
  intro n
  induction n with
  | zero => simpa [clickNightMode] using h
  | succ k ih =>
    have hstep : clickNightMode (k + 1) m
        = nightModeActionTriggered (clickNightMode k m) := by
      unfold clickNightMode
      exact Function.iterate_succ_apply' _ _ _
    rw [hstep]
    have hneg := (nightModeActionTriggered_negates _ _ ih).1
    have hpar : (!xor c (decide (k % 2 = 1))) = xor c (decide ((k + 1) % 2 = 1)) := by
      rcases Nat.mod_two_eq_zero_or_one k with hk | hk
      · have hk1 : (k + 1) % 2 = 1 := by omega
        cases c <;> simp [hk, hk1]
      · have hk1 : (k + 1) % 2 = 0 := by omega
        cases c <;> simp [hk, hk1]
    rw [hpar] at hneg
    exact hneg

/-- C17. In the state `refreshMenu` leaves, the night-mode action is checked
exactly in night mode. After `n` activations of the action and one run of the
`_nightThemeSwitch` callback, `ToggleNightMode` (followed by `KeepApplied`)
has been called exactly once for odd `n` and not at all for even `n`; with
`ToggleNightMode` as negation the night mode at the end is the night mode at
the start XOR (`n` odd). Each activation arms the switch. -/
theorem C17_night_mode_click_parity (g : MenuGlobals) (m : MainMenu) (n : Nat) :
    (nightThemeAction (refreshMenu g m)).map (fun a => a.checked) = some g.nightMode ∧
    (nightThemeSwitchCallback g (clickNightMode n (refreshMenu g m))).themeCalls
      = g.themeCalls ++
        (if n % 2 = 1 then [ThemeCall.ToggleNightMode, ThemeCall.KeepApplied] else []) ∧
    (nightThemeSwitchCallback g (clickNightMode n (refreshMenu g m))).nightMode
      = xor g.nightMode (decide (n % 2 = 1)) ∧
    (clickNightMode (n + 1) (refreshMenu g m)).nightThemeSwitchArmed = true := by
  have h0 := refreshMenu_nightActionChecked g m
  refine ⟨?_, ?_, ?_, ?_⟩
  · obtain ⟨a, ha, _, hc⟩ := h0
    simp [ha, hc]
  · obtain ⟨a, ha, _, hc⟩ := clickNightMode_checked _ _ h0 n
    rcases Nat.mod_two_eq_zero_or_one n with hn | hn
    · have hc2 : a.checked = g.nightMode := by simpa [hn] using hc
      simp [nightThemeSwitchCallback, ha, hc2, hn]
    · have hc2 : a.checked = !g.nightMode := by simpa [hn] using hc
      simp [nightThemeSwitchCallback, ha, hc2, hn, KeepApplied, ToggleNightMode]
  · obtain ⟨a, ha, _, hc⟩ := clickNightMode_checked _ _ h0 n
    rcases Nat.mod_two_eq_zero_or_one n with hn | hn
    · have hc2 : a.checked = g.nightMode := by simpa [hn] using hc
      simp [nightThemeSwitchCallback, ha, hc2, hn]
    · have hc2 : a.checked = !g.nightMode := by simpa [hn] using hc
      simp [nightThemeSwitchCallback, ha, hc2, hn, KeepApplied, ToggleNightMode]
  · have hstep : clickNightMode (n + 1) (refreshMenu g m)
        = nightModeActionTriggered (clickNightMode n (refreshMenu g m)) := by
      unfold clickNightMode
      exact Function.iterate_succ_apply' _ _ _
    rw [hstep]
    exact (nightModeActionTriggered_negates _ _ (clickNightMode_checked _ _ h0 n)).2

end MainMenu

end Window
